import Mathlib

/-!
Blog post CRUD service (`main.go`)

A shallow embedding of the five gin handlers of `main.go` and of the parts of
their collaborators (the MongoDB driver, the JSON binder of gin, `encoding/json`,
`encoding/hex`) that the handlers call.

* The collection `blog.posts` is a list of documents in storage order; the
  server keeps `_id` unique (`Store.WF`).
* Everything the handlers cannot control is an input: `DbEnv` says whether
  `mongo.Connect`, `Ping` and the single collection operation of the request
  report an error, whether the server carried out a write it reported as
  failed, where a cursor breaks, and the clock, process bytes and counter
  from which the driver generates the identifier of a document inserted
  without `_id`.
* A handler returns what it answered (or that `log.Fatal` ended the process),
  the collection afterwards and the list of driver calls it made.
-/

namespace BlogPostMongoGin

/-! ## Identifiers: `primitive.ObjectID` and its hexadecimal form -/

/-- A `primitive.ObjectID`: the Go type `[12]byte`. -/
abbrev ObjectID : Type := { bs : List (Fin 256) // bs.length = 12 }

/-- The zero identifier `primitive.NilObjectID`. -/
def NilObjectID : ObjectID := ⟨List.replicate 12 0, by decide⟩

/-- The method `ObjectID.IsZero`. -/
def ObjectID.IsZero (id : ObjectID) : Bool := decide (id = NilObjectID)

/-- The low eight bits of a number, the Go conversion `byte(n)`. -/
def byte (n : Nat) : Fin 256 := ⟨n % 256, Nat.mod_lt _ (by decide)⟩

/-- The function `primitive.NewObjectID` of the driver
(`NewObjectIDFromTimestamp(time.Now())`): the seconds of the clock as four
bytes, big-endian, then the five `processUnique` bytes, then the low three
bytes of the counter, big-endian. -/
def NewObjectID (now : Nat) (processUnique : { bs : List (Fin 256) // bs.length = 5 })
    (counter : Nat) : ObjectID :=
  ⟨[byte (now / 2 ^ 24), byte (now / 2 ^ 16), byte (now / 2 ^ 8), byte now]
      ++ processUnique.val ++ [byte (counter / 2 ^ 16), byte (counter / 2 ^ 8), byte counter],
    by simp [processUnique.property]⟩

/-- The table `hextable` of `encoding/hex`. -/
def hextable : List Char :=
  ['0', '1', '2', '3', '4', '5', '6', '7', '8', '9', 'a', 'b', 'c', 'd', 'e', 'f']

/-- The loop of `hex.Encode`: every byte `v` becomes `hextable[v>>4]`,
`hextable[v&0x0f]`. -/
def hexEncode : List (Fin 256) → List Char
  | [] => []
  | v :: rest => hextable.getD (v.val / 16) '0' :: hextable.getD (v.val % 16) '0' :: hexEncode rest

/-- The method `ObjectID.Hex`: 24 lower-case hexadecimal characters. -/
def ObjectID.Hex (id : ObjectID) : String := String.mk (hexEncode id.val)

/-- The helper `fromHexChar` of `encoding/hex`: the value of one hexadecimal
digit, either case, or nothing. A character outside ASCII is a sequence of
bytes above `0x7f` in the Go string, none of which is a digit. -/
def fromHexChar (c : Char) : Option Nat :=
  if '0' ≤ c ∧ c ≤ '9' then some (c.toNat - '0'.toNat)
  else if 'a' ≤ c ∧ c ≤ 'f' then some (c.toNat - 'a'.toNat + 10)
  else if 'A' ≤ c ∧ c ≤ 'F' then some (c.toNat - 'A'.toNat + 10)
  else none

/-- The loop of `hex.Decode`: two digits give one byte; an odd length or a
character that is no digit is an error. -/
def hexDecode : List Char → Option (List (Fin 256))
  | [] => some []
  | [_] => none
  | a :: b :: rest =>
    match fromHexChar a, fromHexChar b, hexDecode rest with
    | some hi, some lo, some tl => some (⟨(hi * 16 + lo) % 256, Nat.mod_lt _ (by decide)⟩ :: tl)
    | _, _, _ => none

/-- The function `primitive.ObjectIDFromHex`: the string must be 24 bytes long
(`len(s) != 24` is `ErrInvalidHex`) and decode as hexadecimal into the 12
bytes of the identifier. -/
def ObjectIDFromHex (s : String) : Option ObjectID :=
  if s.utf8ByteSize ≠ 24 then none
  else
    match hexDecode s.data with
    | none => none
    | some bs => if h : bs.length = 12 then some ⟨bs, h⟩ else none

/-- The wording of the specification for a valid identifier: a string of
exactly 24 hexadecimal characters. -/
def IsHex24 (s : String) : Prop :=
  s.data.length = 24 ∧ ∀ c ∈ s.data, c ∈ hextable ∨ c ∈ ['A', 'B', 'C', 'D', 'E', 'F']

instance (s : String) : Decidable (IsHex24 s) := by
  unfold IsHex24; infer_instance

/-! ## JSON values, the entity and the binder -/

/-- A JSON value as `encoding/json` reads or writes it. Numbers are kept as
integers: the handlers only ever test that a value is a number. -/
inductive Json where
  | null : Json
  | bool (b : Bool) : Json
  | num (n : Int) : Json
  | str (s : String) : Json
  | arr (xs : List Json) : Json
  | obj (kvs : List (String × Json)) : Json

/-- The keys of a JSON object, in order; no keys for any other value. -/
def Json.keys : Json → List String
  | .obj kvs => kvs.map Prod.fst
  | _ => []

/-- The word `encoding/json` uses for the kind of a value in an
`UnmarshalTypeError`. -/
def Json.kind : Json → String
  | .null => "null"
  | .bool _ => "bool"
  | .num _ => "number"
  | .str _ => "string"
  | .arr _ => "array"
  | .obj _ => "object"

/-- One member of the body object: its key, the text of its value as it
stands in the body (the bytes `encoding/json` hands to an `UnmarshalJSON`
method) and the value that text parses to. -/
structure Member where
  key : String
  raw : List (Fin 256)
  value : Json

/-- The kinds of JSON value that are neither an object nor `null`. -/
inductive NonObject where
  | bool | number | string | array
deriving DecidableEq

/-- The word `encoding/json` uses for such a kind. -/
def NonObject.kind : NonObject → String
  | .bool => "bool"
  | .number => "number"
  | .string => "string"
  | .array => "array"

/-- The JSON value the decoder reads from the request body: `null`, an
object with its members in order, or a value of another kind. -/
inductive Body where
  | null : Body
  | object (members : List Member) : Body
  | other (kind : NonObject) : Body

/-- The struct `BlogPost`. Its tags are `bson` tags only (`_id,omitempty`,
`title`, `content`): it has no `json` tag and no `binding` tag, so in JSON its
members go by the Go field names `ID`, `Title`, `Content`. -/
structure BlogPost where
  ID : ObjectID
  Title : String
  Content : String
deriving DecidableEq

/-- The Go zero value of `BlogPost`, what `var blogPost BlogPost` holds. -/
def BlogPost.zero : BlogPost := ⟨NilObjectID, "", ""⟩

/-- Why `c.ShouldBindJSON` returned an error. -/
inductive BindError where
  /-- The body holds no JSON value (it is empty or malformed). -/
  | noValue : BindError
  /-- The body is a JSON value that is neither an object nor `null`. -/
  | notAnObject (kind : String) : BindError
  /-- A member named like a string field of the struct holds another kind. -/
  | fieldType (kind field : String) : BindError
  /-- The member named like `ID` is not the JSON form of an identifier. -/
  | objectID : BindError
deriving DecidableEq

/-- The text of `err.Error()`; the wording belongs to the library and nothing
below depends on it. -/
def BindError.Error : BindError → String
  | .noValue => "EOF"
  | .notAnObject kind => "json: cannot unmarshal " ++ kind ++ " into Go value of type main.BlogPost"
  | .fieldType kind field =>
    "json: cannot unmarshal " ++ kind ++ " into Go struct field BlogPost." ++ field
      ++ " of type string"
  | .objectID => "not an extended JSON ObjectID"

/-- The key folding of `encoding/json`: a key names a field when the two are
equal up to the case of ASCII letters (none of `ID`, `Title`, `Content` holds
a letter with a non-ASCII case variant). -/
def foldName (k : String) : List Char := k.data.map Char.toUpper

/-- The identifier a JSON string stands for in `ObjectID.UnmarshalJSON`: the
empty string is the zero identifier, any other must be 24 hex digits. -/
def objectIDOfString (s : String) : Except BindError ObjectID :=
  if s = "" then .ok NilObjectID
  else
    match ObjectIDFromHex s with
    | some id => .ok id
    | none => .error .objectID

/-- The bytes of the text `null`. -/
def nullText : List (Fin 256) := [0x6e, 0x75, 0x6c, 0x6c]

/-- The method `ObjectID.UnmarshalJSON` of the driver on the text `raw` of a
value: the text `null` leaves the field as it is; a text of exactly 12 bytes
is copied into the identifier as it stands (`case 12: copy(id[:], b)`); any
other text is parsed, and a string, or an object with a string under `$oid`
(extended JSON, the last such member), gives the identifier; anything else is
an error. -/
def unmarshalObjectID (cur : ObjectID) (raw : List (Fin 256)) (v : Json) :
    Except BindError ObjectID :=
  if raw = nullText then .ok cur
  else if h : raw.length = 12 then .ok ⟨raw, h⟩
  else
    match v with
    | .str s => objectIDOfString s
    | .obj kvs =>
      match kvs.reverse.lookup "$oid" with
      | some (.str s) => objectIDOfString s
      | _ => .error .objectID
    | _ => .error .objectID

/-- Decoding a JSON value into a Go `string` field: a string is stored,
`null` changes nothing, any other kind is an `UnmarshalTypeError`. -/
def unmarshalString (field : String) (cur : String) : Json → Except BindError String
  | .str s => .ok s
  | .null => .ok cur
  | v => .error (.fieldType v.kind field)

/-- One member of the body object stored into the struct: the key picks the
field by `foldName`; a key that names no field is skipped. -/
def setField (p : BlogPost) (m : Member) : Except BindError BlogPost :=
  if foldName m.key = "ID".data then
    match unmarshalObjectID p.ID m.raw m.value with
    | .ok id => .ok { p with ID := id }
    | .error e => .error e
  else if foldName m.key = "TITLE".data then
    match unmarshalString "Title" p.Title m.value with
    | .ok s => .ok { p with Title := s }
    | .error e => .error e
  else if foldName m.key = "CONTENT".data then
    match unmarshalString "Content" p.Content m.value with
    | .ok s => .ok { p with Content := s }
    | .error e => .error e
  else .ok p

/-- The members of the body object stored one after the other, a later
duplicate overwriting an earlier one; the first error is the result. -/
def decodeObject : BlogPost → List Member → Except BindError BlogPost
  | p, [] => .ok p
  | p, m :: rest =>
    match setField p m with
    | .ok q => decodeObject q rest
    | .error e => .error e

/-- The call `c.ShouldBindJSON(&blogPost)` on a fresh `var blogPost BlogPost`.
The body is what the JSON decoder reads from the request: no value (empty or
malformed body) or one JSON value. An object is decoded member by member,
`null` leaves the zero struct, any other kind is an error. The validation
step that follows has nothing to check: `BlogPost` carries no `binding` tag. -/
def ShouldBindJSON (body : Option Body) : Except BindError BlogPost :=
  match body with
  | none => .error .noValue
  | some .null => .ok BlogPost.zero
  | some (.object members) => decodeObject BlogPost.zero members
  | some (.other k) => .error (.notAnObject k.kind)

/-- The JSON encoding of a `BlogPost` by `encoding/json`: the exported
fields in declaration order under their Go names, the identifier through
`ObjectID.MarshalJSON` as its hex string. -/
def BlogPost.toJSON (p : BlogPost) : Json :=
  .obj [("ID", .str p.ID.Hex), ("Title", .str p.Title), ("Content", .str p.Content)]

/-- A Go slice `[]BlogPost`: `none` is the nil slice. -/
abbrev Slice : Type := Option (List BlogPost)

/-- The Go built-in `append` for one element. -/
def Slice.append (s : Slice) (p : BlogPost) : Slice :=
  match s with
  | none => some [p]
  | some l => some (l ++ [p])

/-- The JSON encoding of a `[]BlogPost`: a nil slice is `null`, any other an
array. -/
def Slice.toJSON : Slice → Json
  | none => .null
  | some l => .arr (l.map BlogPost.toJSON)

/-- The value `gin.H{key: text}`. -/
def ginH (key text : String) : Json := .obj [(key, .str text)]

/-! ## The database -/

/-- The collection `blog.posts`: its documents in storage order. -/
abbrev Store : Type := List BlogPost

/-- The unique index the server keeps on `_id`. -/
def Store.WF (store : Store) : Prop := (store.map BlogPost.ID).Nodup

instance (store : Store) : Decidable (Store.WF store) := by
  unfold Store.WF; infer_instance

/-- The document stored under an identifier, if any. -/
def Store.lookup (store : Store) (id : ObjectID) : Option BlogPost :=
  store.find? (fun p => decide (p.ID = id))

/-- The driver calls a handler makes. -/
inductive DbCall where
  | Connect | Ping | InsertOne | FindOne | Find | UpdateOne | DeleteOne | Disconnect
deriving DecidableEq

/-- What the database and the driver do during one request, none of it under
the control of the handler. -/
structure DbEnv where
  /-- Whether `mongo.Connect` returns an error. -/
  connectErr : Bool
  /-- Whether `client.Ping` returns an error. -/
  pingErr : Bool
  /-- Whether the collection operation of the request (`InsertOne`, `FindOne`,
  `Find`, `UpdateOne`, `DeleteOne`) fails on the server or on the wire. -/
  opErr : Bool
  /-- When a write reports such an error: whether the server had carried the
  write out all the same (the reply was lost, or the write concern failed
  after the write). -/
  opApplied : Bool
  /-- The number of documents after which the cursor of `Find` breaks
  (`cur.Next` false with `cur.Err()` set), if it does. -/
  cursorErrAt : Option Nat
  /-- The index of the document `cur.Decode` cannot decode, if any. -/
  decodeErrAt : Option Nat
  /-- The Unix time in seconds that the driver reads (`time.Now().Unix()`)
  when it generates an identifier. -/
  now : Nat
  /-- The clock reads a time after 1970-01-01 00:00:00 UTC. -/
  now_pos : 0 < now
  /-- The clock reads a time before 2106-02-07, so the seconds fit `uint32`. -/
  now_lt : now < 2 ^ 32
  /-- The five random bytes `processUnique` of the driver. -/
  processUnique : { bs : List (Fin 256) // bs.length = 5 }
  /-- The value of `objectIDCounter` after its increment. -/
  counter : Nat

/-- The identifier the driver generates for a document without `_id`. -/
def DbEnv.newObjectID (env : DbEnv) : ObjectID :=
  NewObjectID env.now env.processUnique env.counter

/-- The database is reachable: connecting and pinging succeed. -/
def DbEnv.reachable (env : DbEnv) : Prop := env.connectErr = false ∧ env.pingErr = false

instance (env : DbEnv) : Decidable env.reachable := by
  unfold DbEnv.reachable; infer_instance

/-- The function `getDB`: connect, then ping; whether a client came back, and
the driver calls made. -/
def getDB (env : DbEnv) : Bool × List DbCall :=
  if env.connectErr then (false, [.Connect])
  else if env.pingErr then (false, [.Connect, .Ping])
  else (true, [.Connect, .Ping])

/-- The error of a collection operation. -/
inductive DbError where
  /-- The operation failed on the server or on the wire. -/
  | failed : DbError
  /-- A document with this `_id` exists already (`E11000`). -/
  | duplicateKey : DbError
  /-- The result `mongo.ErrNoDocuments` of `FindOne`. -/
  | noDocuments : DbError
deriving DecidableEq

/-- The method `Collection.InsertOne` on a `BlogPost`. With `_id,omitempty` a
zero `ID` is left out of the document and the driver generates one. The
server refuses a second document under an `_id`. An insert that reports an
error has stored the document or not, as `opApplied` says. The result is
`InsertedID` or the error, and the collection afterwards. -/
def InsertOne (env : DbEnv) (store : Store) (doc : BlogPost) : Except DbError ObjectID × Store :=
  let id := if doc.ID.IsZero then env.newObjectID else doc.ID
  if store.any (fun p => decide (p.ID = id)) then (.error .duplicateKey, store)
  else if env.opErr then
    (.error .failed, if env.opApplied then store ++ [{ doc with ID := id }] else store)
  else (.ok id, store ++ [{ doc with ID := id }])

/-- The call `FindOne(ctx, bson.M{"_id": id}).Decode(&blogPost)`. -/
def FindOne (env : DbEnv) (store : Store) (id : ObjectID) : Except DbError BlogPost :=
  if env.opErr then .error .failed
  else
    match store.lookup id with
    | some p => .ok p
    | none => .error .noDocuments

/-- The first document with the identifier gets the title and the content
(`$set`), in place. -/
def setFirst (id : ObjectID) (title content : String) : Store → Store
  | [] => []
  | p :: rest =>
    if p.ID = id then { p with Title := title, Content := content } :: rest
    else p :: setFirst id title content rest

/-- The method `Collection.UpdateOne` with filter `{"_id": id}` and update
`{"$set": {"title": .., "content": ..}}`. An update that reports an error
has been carried out or not, as `opApplied` says. The result is
`MatchedCount` or the error, and the collection afterwards. -/
def UpdateOne (env : DbEnv) (store : Store) (id : ObjectID) (title content : String) :
    Except DbError Nat × Store :=
  if env.opErr then
    (.error .failed, if env.opApplied then setFirst id title content store else store)
  else if store.any (fun p => decide (p.ID = id)) then (.ok 1, setFirst id title content store)
  else (.ok 0, store)

/-- The method `Collection.DeleteOne` with filter `{"_id": id}`. A delete
that reports an error has been carried out or not, as `opApplied` says. The
result is `DeletedCount` or the error, and the collection afterwards. -/
def DeleteOne (env : DbEnv) (store : Store) (id : ObjectID) : Except DbError Nat × Store :=
  if env.opErr then
    (.error .failed,
      if env.opApplied then store.eraseP (fun p => decide (p.ID = id)) else store)
  else if store.any (fun p => decide (p.ID = id)) then
    (.ok 1, store.eraseP (fun p => decide (p.ID = id)))
  else (.ok 0, store)

/-- The method `Collection.Find` with the empty filter: a cursor over all
documents. -/
def Find (env : DbEnv) (store : Store) : Except DbError (List BlogPost) :=
  if env.opErr then .error .failed else .ok store

/-! ## Responses and handlers -/

/-- The constant `http.StatusOK`. -/
def StatusOK : Nat := 200
/-- The constant `http.StatusCreated`. -/
def StatusCreated : Nat := 201
/-- The constant `http.StatusBadRequest`. -/
def StatusBadRequest : Nat := 400
/-- The constant `http.StatusNotFound`. -/
def StatusNotFound : Nat := 404
/-- The constant `http.StatusInternalServerError`. -/
def StatusInternalServerError : Nat := 500

/-- How a handler ends: with `c.JSON(status, body)`, or in `log.Fatal`, which
exits the process before any response is written. -/
inductive Outcome where
  | responded (status : Nat) (body : Json) : Outcome
  | fatal : Outcome

/-- The status of the response, if there is one. -/
def Outcome.status : Outcome → Option Nat
  | .responded st _ => some st
  | .fatal => none

/-- The body of the response, if there is one. -/
def Outcome.body : Outcome → Option Json
  | .responded _ b => some b
  | .fatal => none

/-- One run of a handler: how it ended, the collection afterwards and the
driver calls it made, in order. -/
structure Result where
  outcome : Outcome
  store : Store
  calls : List DbCall

/-- The status of the response of a run, if there is one. -/
def Result.status (r : Result) : Option Nat := r.outcome.status

/-- The body of the response of a run, if there is one. -/
def Result.body (r : Result) : Option Json := r.outcome.body

/-- The handler `createBlogPost` (`POST /posts`). -/
def createBlogPost (env : DbEnv) (body : Option Body) (store : Store) : Result :=
  match ShouldBindJSON body with
  | .error err => ⟨.responded StatusBadRequest (ginH "error" err.Error), store, []⟩
  | .ok blogPost =>
    match getDB env with
    | (false, calls) =>
      ⟨.responded StatusInternalServerError (ginH "error" "Failed to connect to database"),
        store, calls⟩
    | (true, calls) =>
      match InsertOne env store blogPost with
      | (.error _, store2) =>
        ⟨.responded StatusInternalServerError (ginH "error" "Failed to insert blog post"),
          store2, calls ++ [.InsertOne, .Disconnect]⟩
      | (.ok id, store2) =>
        ⟨.responded StatusCreated ({ blogPost with ID := id }).toJSON,
          store2, calls ++ [.InsertOne, .Disconnect]⟩

/-- The handler `getBlogPost` (`GET /posts/:id`). -/
def getBlogPost (env : DbEnv) (id : String) (store : Store) : Result :=
  match getDB env with
  | (false, calls) =>
    ⟨.responded StatusInternalServerError (ginH "error" "Failed to connect to database"),
      store, calls⟩
  | (true, calls) =>
    match ObjectIDFromHex id with
    | none => ⟨.responded StatusBadRequest (ginH "error" "Invalid ID"), store, calls ++ [.Disconnect]⟩
    | some objectID =>
      match FindOne env store objectID with
      | .error _ =>
        ⟨.responded StatusNotFound (ginH "error" "Blog post not found"),
          store, calls ++ [.FindOne, .Disconnect]⟩
      | .ok blogPost =>
        ⟨.responded StatusOK blogPost.toJSON, store, calls ++ [.FindOne, .Disconnect]⟩

/-- The loop `for cur.Next(ctx) { cur.Decode; append }` and the check of
`cur.Err()` after it, from document number `i` on: the slice read, or nothing
when `log.Fatal` is reached. -/
def readAll (env : DbEnv) : Nat → List BlogPost → Slice → Option Slice
  | i, [], blogPosts => if env.cursorErrAt = some i then none else some blogPosts
  | i, doc :: rest, blogPosts =>
    if env.cursorErrAt = some i then none
    else if env.decodeErrAt = some i then none
    else readAll env (i + 1) rest (blogPosts.append doc)

/-- The handler `getBlogPosts` (`GET /posts`). The slice starts as
`var blogPosts []BlogPost`, the nil slice. The deferred `Disconnect` does not
run when `log.Fatal` exits. -/
def getBlogPosts (env : DbEnv) (store : Store) : Result :=
  match getDB env with
  | (false, calls) =>
    ⟨.responded StatusInternalServerError (ginH "error" "Failed to connect to database"),
      store, calls⟩
  | (true, calls) =>
    match Find env store with
    | .error _ =>
      ⟨.responded StatusInternalServerError (ginH "error" "Failed to retrieve blog posts"),
        store, calls ++ [.Find, .Disconnect]⟩
    | .ok docs =>
      match readAll env 0 docs none with
      | none => ⟨.fatal, store, calls ++ [.Find]⟩
      | some blogPosts =>
        ⟨.responded StatusOK (Slice.toJSON blogPosts), store, calls ++ [.Find, .Disconnect]⟩

/-- The handler `updateBlogPost` (`PUT /posts/:id`). -/
def updateBlogPost (env : DbEnv) (id : String) (body : Option Body) (store : Store) : Result :=
  match ShouldBindJSON body with
  | .error err => ⟨.responded StatusBadRequest (ginH "error" err.Error), store, []⟩
  | .ok blogPost =>
    match getDB env with
    | (false, calls) =>
      ⟨.responded StatusInternalServerError (ginH "error" "Failed to connect to database"),
        store, calls⟩
    | (true, calls) =>
      match ObjectIDFromHex id with
      | none =>
        ⟨.responded StatusBadRequest (ginH "error" "Invalid ID"), store, calls ++ [.Disconnect]⟩
      | some objectID =>
        match UpdateOne env store objectID blogPost.Title blogPost.Content with
        | (.error _, store2) =>
          ⟨.responded StatusInternalServerError (ginH "error" "Failed to update blog post"),
            store2, calls ++ [.UpdateOne, .Disconnect]⟩
        | (.ok matchedCount, store2) =>
          if matchedCount = 0 then
            ⟨.responded StatusNotFound (ginH "error" "Blog post not found"),
              store2, calls ++ [.UpdateOne, .Disconnect]⟩
          else
            ⟨.responded StatusOK (ginH "message" ("Blog post with ID " ++ id ++ " updated")),
              store2, calls ++ [.UpdateOne, .Disconnect]⟩

/-- The handler `deleteBlogPost` (`DELETE /posts/:id`). -/
def deleteBlogPost (env : DbEnv) (id : String) (store : Store) : Result :=
  match getDB env with
  | (false, calls) =>
    ⟨.responded StatusInternalServerError (ginH "error" "Failed to connect to database"),
      store, calls⟩
  | (true, calls) =>
    match ObjectIDFromHex id with
    | none => ⟨.responded StatusBadRequest (ginH "error" "Invalid ID"), store, calls ++ [.Disconnect]⟩
    | some objectID =>
      match DeleteOne env store objectID with
      | (.error _, store2) =>
        ⟨.responded StatusInternalServerError (ginH "error" "Failed to delete blog post"),
          store2, calls ++ [.DeleteOne, .Disconnect]⟩
      | (.ok deletedCount, store2) =>
        if deletedCount = 0 then
          ⟨.responded StatusNotFound (ginH "error" "Blog post not found"),
            store2, calls ++ [.DeleteOne, .Disconnect]⟩
        else
          ⟨.responded StatusOK (ginH "message" ("Blog post with ID " ++ id ++ " deleted")),
            store2, calls ++ [.DeleteOne, .Disconnect]⟩

/-- What every handler does with a malformed identifier once it gets as far
as `getDB`: the collection is left as it is, only `Connect`, `Ping` and
`Disconnect` are called, and the answer is 400 after a successful connection
and ping (then closed again) and 500 otherwise. -/
def AnsweredWithoutReadWrite (env : DbEnv) (store : Store) (r : Result) : Prop :=
  r.store = store ∧
    (∀ c ∈ r.calls, c = DbCall.Connect ∨ c = DbCall.Ping ∨ c = DbCall.Disconnect) ∧
    (env.reachable → r.status = some 400 ∧ r.calls = [.Connect, .Ping, .Disconnect]) ∧
    (¬ env.reachable → r.status = some 500 ∧ r.calls = (getDB env).2)

/-! ## Concrete requests -/

/-- A database on which every call succeeds and whose next generated
identifier is `65a1b2c3d4e5f60718293a4b`. -/
def envUp : DbEnv :=
  { connectErr := false, pingErr := false, opErr := false, opApplied := false,
    cursorErrAt := none, decodeErrAt := none,
    now := 0x65a1b2c3, now_pos := by decide, now_lt := by decide,
    processUnique := ⟨[0xd4, 0xe5, 0xf6, 0x07, 0x18], by decide⟩, counter := 0x293a4b }

/-- The database `envUp` one identifier later: the next generated identifier
is `65a1b2c3d4e5f60718293a4c`. -/
def envNext : DbEnv := { envUp with counter := 0x293a4c }

/-- A database that refuses the connection. -/
def envDown : DbEnv := { envUp with connectErr := true }

/-- A reachable database whose collection operation fails. -/
def envOpFails : DbEnv := { envUp with opErr := true }

/-- A reachable database that carries the write out and whose reply is lost,
so that the driver reports an error. -/
def envReplyLost : DbEnv := { envUp with opErr := true, opApplied := true }

/-- A reachable database whose cursor breaks after the first document. -/
def envCursorBreaks : DbEnv := { envUp with cursorErrAt := some 1 }

/-- The body `{"title":"A","content":"B"}`. -/
def bodyAB : Option Body :=
  some (.object [⟨"title", [0x22, 0x41, 0x22], .str "A"⟩, ⟨"content", [0x22, 0x42, 0x22], .str "B"⟩])

/-- The body `{}`. -/
def bodyEmptyObject : Option Body := some (.object [])

/-- The body `{"title":"A"}`. -/
def bodyTitleOnly : Option Body := some (.object [⟨"title", [0x22, 0x41, 0x22], .str "A"⟩])

/-- The body `{"title":5}`. -/
def bodyTitleNumber : Option Body := some (.object [⟨"title", [0x35], .num 5⟩])

/-- The body `{"id":"0123456789"}`: the text of the value is 12 bytes long. -/
def bodyRawID : Option Body :=
  some (.object [⟨"id", [0x22, 0x30, 0x31, 0x32, 0x33, 0x34, 0x35, 0x36, 0x37, 0x38, 0x39, 0x22],
    .str "0123456789"⟩])

/-- The member `"title":""`. -/
def emptyTitle : Member := ⟨"title", [0x22, 0x22], .str ""⟩

/-- The member `"content":""`. -/
def emptyContent : Member := ⟨"content", [0x22, 0x22], .str ""⟩


/-- A collection of two posts, under `65a1b2c3d4e5f60718293a4b` and under
`0123456789abcdef01234567`. -/
def store2 : Store :=
  [⟨envUp.newObjectID, "A", "B"⟩,
    ⟨⟨[0x01, 0x23, 0x45, 0x67, 0x89, 0xab, 0xcd, 0xef, 0x01, 0x23, 0x45, 0x67], by decide⟩,
      "C", "D"⟩]

/-! ## Hexadecimal form: decoding inverts encoding -/

theorem fromHexChar_hextable (n : Fin 16) : fromHexChar (hextable.getD n.val '0') = some n.val := by
  revert n; decide

theorem utf8Size_hextable (n : Fin 16) : (hextable.getD n.val '0').utf8Size = 1 := by
  revert n; decide

theorem hexDecode_hexEncode (bs : List (Fin 256)) : hexDecode (hexEncode bs) = some bs := by
  induction bs with
  | nil => rfl
  | cons v rest ih =>
    have h1 := fromHexChar_hextable ⟨v.val / 16, by omega⟩
    have h2 := fromHexChar_hextable ⟨v.val % 16, by omega⟩
    simp only at h1 h2
    simp only [hexEncode, hexDecode, h1, h2, ih]
    congr 2
    apply Fin.ext
    simp only
    omega

theorem utf8ByteSize_go_hexEncode (bs : List (Fin 256)) :
    String.utf8ByteSize.go (hexEncode bs) = 2 * bs.length := by
  induction bs with
  | nil => rfl
  | cons v rest ih =>
    have h1 := utf8Size_hextable ⟨v.val / 16, by omega⟩
    have h2 := utf8Size_hextable ⟨v.val % 16, by omega⟩
    simp only at h1 h2
    simp only [hexEncode, String.utf8ByteSize.go, h1, h2, ih, List.length_cons]
    omega

theorem ObjectIDFromHex_Hex (id : ObjectID) : ObjectIDFromHex id.Hex = some id := by
  obtain ⟨bs, hlen⟩ := id
  have hsize : (String.mk (hexEncode bs)).utf8ByteSize = 24 := by
    show String.utf8ByteSize.go (hexEncode bs) = 24
    rw [utf8ByteSize_go_hexEncode, hlen]
  simp only [ObjectIDFromHex, ObjectID.Hex, hsize, hexDecode_hexEncode]
  simp [hlen]


/-- The characters `fromHexChar` accepts are the 22 hexadecimal digits. -/
theorem fromHexChar_isSome_iff (c : Char) :
    (fromHexChar c).isSome = true ↔ (c ∈ hextable ∨ c ∈ ['A', 'B', 'C', 'D', 'E', 'F']) := by
  constructor
  · intro h
    have hc : c = Char.ofNat c.toNat := (Char.ofNat_toNat c).symm
    unfold fromHexChar at h
    simp only [Char.le_def] at h
    split at h
    · rename_i hr
      have h1 : 48 ≤ c.toNat := hr.1
      have h2 : c.toNat ≤ 57 := hr.2
      left
      rw [hc]
      interval_cases c.toNat <;> decide
    · split at h
      · rename_i hr
        have h1 : 97 ≤ c.toNat := hr.1
        have h2 : c.toNat ≤ 102 := hr.2
        left
        rw [hc]
        interval_cases c.toNat <;> decide
      · split at h
        · rename_i hr
          have h1 : 65 ≤ c.toNat := hr.1
          have h2 : c.toNat ≤ 70 := hr.2
          right
          rw [hc]
          interval_cases c.toNat <;> decide
        · simp at h
  · intro h
    have key : ∀ d ∈ hextable ++ ['A', 'B', 'C', 'D', 'E', 'F'], (fromHexChar d).isSome = true := by
      decide
    exact key c (List.mem_append.mpr h)

theorem utf8Size_of_hex (c : Char) (h : c ∈ hextable ∨ c ∈ ['A', 'B', 'C', 'D', 'E', 'F']) :
    c.utf8Size = 1 := by
  have key : ∀ d ∈ hextable ++ ['A', 'B', 'C', 'D', 'E', 'F'], d.utf8Size = 1 := by decide
  exact key c (List.mem_append.mpr h)

theorem hexDecode_some : ∀ (cs : List Char) (bs : List (Fin 256)), hexDecode cs = some bs →
    cs.length = 2 * bs.length ∧ ∀ c ∈ cs, (fromHexChar c).isSome = true
  | [], bs, h => by
    simp only [hexDecode, Option.some.injEq] at h
    subst h
    simp
  | [_], bs, h => by simp [hexDecode] at h
  | a :: b :: rest, bs, h => by
    simp only [hexDecode] at h
    split at h
    · rename_i hi lo tl ha hb hrest
      simp only [Option.some.injEq] at h
      subst h
      obtain ⟨hl, hall⟩ := hexDecode_some rest tl hrest
      refine ⟨by simp only [List.length_cons]; omega, ?_⟩
      intro c hc
      simp only [List.mem_cons] at hc
      rcases hc with rfl | rfl | hc
      · simp [ha]
      · simp [hb]
      · exact hall c hc
    · simp at h

theorem hexDecode_of_hex : ∀ (n : Nat) (cs : List Char), cs.length = 2 * n →
    (∀ c ∈ cs, (fromHexChar c).isSome = true) → ∃ bs, hexDecode cs = some bs ∧ bs.length = n
  | 0, cs, hlen, _ => by
    have : cs = [] := List.length_eq_zero.mp (by omega)
    subst this
    exact ⟨[], rfl, rfl⟩
  | n + 1, [], hlen, _ => by simp only [List.length_nil] at hlen; omega
  | n + 1, [_], hlen, _ => by simp only [List.length_cons, List.length_nil] at hlen; omega
  | n + 1, a :: b :: rest, hlen, hall => by
    have hrest : rest.length = 2 * n := by simp only [List.length_cons] at hlen; omega
    obtain ⟨tl, htl, htllen⟩ := hexDecode_of_hex n rest hrest (fun c hc => hall c (by simp [hc]))
    obtain ⟨hi, hhi⟩ := Option.isSome_iff_exists.mp (hall a (by simp))
    obtain ⟨lo, hlo⟩ := Option.isSome_iff_exists.mp (hall b (by simp))
    refine ⟨⟨(hi * 16 + lo) % 256, Nat.mod_lt _ (by decide)⟩ :: tl, ?_, by simp [htllen]⟩
    simp only [hexDecode, hhi, hlo, htl]

theorem utf8ByteSize_go_of_hex (cs : List Char)
    (hall : ∀ c ∈ cs, c ∈ hextable ∨ c ∈ ['A', 'B', 'C', 'D', 'E', 'F']) :
    String.utf8ByteSize.go cs = cs.length := by
  induction cs with
  | nil => rfl
  | cons c rest ih =>
    simp only [String.utf8ByteSize.go, List.length_cons,
      ih (fun d hd => hall d (List.mem_cons_of_mem _ hd)),
      utf8Size_of_hex c (hall c (List.mem_cons_self _ _))]

/-- The identifiers `ObjectIDFromHex` accepts are the strings of exactly 24
hexadecimal characters. -/
theorem ObjectIDFromHex_isSome_iff (s : String) :
    (ObjectIDFromHex s).isSome = true ↔ IsHex24 s := by
  constructor
  · intro h
    unfold ObjectIDFromHex at h
    split at h
    · simp at h
    · split at h
      · simp at h
      · rename_i bs hdec
        split at h
        · rename_i hlen
          obtain ⟨hl, hall⟩ := hexDecode_some _ _ hdec
          exact ⟨by omega, fun c hc => (fromHexChar_isSome_iff c).mp (hall c hc)⟩
        · simp at h
  · rintro ⟨hlen, hall⟩
    have hsize : s.utf8ByteSize = 24 := by
      show String.utf8ByteSize.go s.data = 24
      rw [utf8ByteSize_go_of_hex _ hall, hlen]
    obtain ⟨bs, hbs, hbslen⟩ := hexDecode_of_hex 12 s.data hlen
      (fun c hc => (fromHexChar_isSome_iff c).mpr (hall c hc))
    simp [ObjectIDFromHex, hsize, hbs, hbslen]

theorem ObjectIDFromHex_eq_none (s : String) (h : ¬ IsHex24 s) : ObjectIDFromHex s = none := by
  cases hs : ObjectIDFromHex s with
  | none => rfl
  | some id => exact absurd ((ObjectIDFromHex_isSome_iff s).mp (by simp [hs])) h


/-! ## The binder on the bodies of the scenarios -/

theorem setField_title (p : BlogPost) (raw : List (Fin 256)) (title : String) :
    setField p ⟨"title", raw, .str title⟩ = .ok { p with Title := title } := by
  have h1 : foldName "title" ≠ "ID".data := by decide
  have h2 : foldName "title" = "TITLE".data := by decide
  unfold setField
  simp only
  rw [if_neg h1, if_pos h2]
  rfl

theorem setField_content (p : BlogPost) (raw : List (Fin 256)) (content : String) :
    setField p ⟨"content", raw, .str content⟩ = .ok { p with Content := content } := by
  have h3 : foldName "content" ≠ "ID".data := by decide
  have h4 : foldName "content" ≠ "TITLE".data := by decide
  have h5 : foldName "content" = "CONTENT".data := by decide
  unfold setField
  simp only
  rw [if_neg h3, if_neg h4, if_pos h5]
  rfl

theorem ShouldBindJSON_title_content (rawT rawC : List (Fin 256)) (title content : String) :
    ShouldBindJSON (some (.object [⟨"title", rawT, .str title⟩, ⟨"content", rawC, .str content⟩]))
      = .ok ⟨NilObjectID, title, content⟩ := by
  simp only [ShouldBindJSON, decodeObject, setField_title, setField_content, BlogPost.zero]

theorem ShouldBindJSON_title (rawT : List (Fin 256)) (title : String) :
    ShouldBindJSON (some (.object [⟨"title", rawT, .str title⟩])) = .ok ⟨NilObjectID, title, ""⟩ := by
  simp only [ShouldBindJSON, decodeObject, setField_title, BlogPost.zero]

theorem ShouldBindJSON_content (rawC : List (Fin 256)) (content : String) :
    ShouldBindJSON (some (.object [⟨"content", rawC, .str content⟩]))
      = .ok ⟨NilObjectID, "", content⟩ := by
  simp only [ShouldBindJSON, decodeObject, setField_content, BlogPost.zero]

/-! ## The generated identifier -/

/-- The driver never generates the zero identifier: the first four bytes are
the seconds of a clock that reads a positive time below `2 ^ 32`. -/
theorem newObjectID_ne_nil (env : DbEnv) : env.newObjectID ≠ NilObjectID := by
  intro h
  have hbytes := congrArg Subtype.val h
  have hpos := env.now_pos
  have hlt := env.now_lt
  simp only [DbEnv.newObjectID, NewObjectID, NilObjectID, List.replicate, List.cons_append,
    List.nil_append, List.cons.injEq, byte, Fin.mk.injEq] at hbytes
  obtain ⟨h1, h2, h3, h4, _⟩ := hbytes
  have e1 : (env.now / 2 ^ 24) % 256 = 0 := by simpa using congrArg Fin.val h1
  have e2 : (env.now / 2 ^ 16) % 256 = 0 := by simpa using congrArg Fin.val h2
  have e3 : (env.now / 2 ^ 8) % 256 = 0 := by simpa using congrArg Fin.val h3
  have e4 : env.now % 256 = 0 := by simpa using congrArg Fin.val h4
  norm_num at e1 e2 e3 hlt
  omega

/-! ## Facts about the collection -/

theorem getDB_of_reachable (env : DbEnv) (h : env.reachable) :
    getDB env = (true, [.Connect, .Ping]) := by
  obtain ⟨hc, hp⟩ := h
  simp [getDB, hc, hp]

theorem getDB_of_not_reachable (env : DbEnv) (h : ¬ env.reachable) :
    (getDB env = (false, [.Connect]) ∨ getDB env = (false, [.Connect, .Ping])) := by
  unfold DbEnv.reachable at h
  unfold getDB
  cases hc : env.connectErr <;> cases hp : env.pingErr <;> simp_all

theorem lookup_append_new (store : Store) (p : BlogPost)
    (hnew : store.any (fun q => decide (q.ID = p.ID)) = false) :
    Store.lookup (store ++ [p]) p.ID = some p := by
  unfold Store.lookup
  rw [List.find?_append]
  have : store.find? (fun q => decide (q.ID = p.ID)) = none := by
    rw [List.find?_eq_none]
    intro q hq
    have := List.any_eq_false.mp hnew q hq
    simpa using this
  simp [this]

theorem hexEncode_lower (bs : List (Fin 256)) : ∀ c ∈ hexEncode bs, c ∈ hextable := by
  have key : ∀ n : Fin 16, hextable.getD n.val '0' ∈ hextable := by decide
  induction bs with
  | nil => simp [hexEncode]
  | cons v rest ih =>
    intro c hc
    simp only [hexEncode, List.mem_cons] at hc
    rcases hc with rfl | rfl | hc
    · exact key ⟨v.val / 16, by omega⟩
    · exact key ⟨v.val % 16, by omega⟩
    · exact ih c hc

theorem IsHex24_Hex (id : ObjectID) : IsHex24 id.Hex :=
  (ObjectIDFromHex_isSome_iff id.Hex).mp (by simp [ObjectIDFromHex_Hex])

theorem InsertOne_ok (env : DbEnv) (store : Store) (doc : BlogPost) (id : ObjectID)
    (store2 : Store) (h : InsertOne env store doc = (.ok id, store2)) :
    env.opErr = false ∧
      store.any (fun q => decide (q.ID = if doc.ID.IsZero then env.newObjectID else doc.ID)) = false ∧
      id = (if doc.ID.IsZero then env.newObjectID else doc.ID) ∧
      store2 = store ++ [{ doc with ID := if doc.ID.IsZero then env.newObjectID else doc.ID }] := by
  unfold InsertOne at h
  by_cases h2 : store.any
      (fun q => decide (q.ID = if doc.ID.IsZero then env.newObjectID else doc.ID)) = true
  · simp only [h2, if_true] at h
    simp at h
  · by_cases h1 : env.opErr = true
    · rw [if_neg h2, if_pos h1] at h
      simp at h
    · rw [if_neg h2, if_neg h1] at h
      simp only [Prod.mk.injEq, Except.ok.injEq] at h
      exact ⟨by simpa using h1, by simpa using h2, h.1.symm, h.2.symm⟩

/-- Creating `{title, content}` on a reachable database where the insert
succeeds, then reading the generated identifier back. -/
theorem create_get_generated (env1 env2 : DbEnv) (store : Store) (title content : String)
    (rawT rawC : List (Fin 256))
    (hreach1 : env1.reachable)
    (hinsert : ∃ id store2, InsertOne env1 store ⟨NilObjectID, title, content⟩ = (.ok id, store2))
    (hreach2 : env2.reachable) (hread2 : env2.opErr = false) :
    (createBlogPost env1
        (some (.object [⟨"title", rawT, .str title⟩, ⟨"content", rawC, .str content⟩])) store).outcome
        = .responded 201 (.obj [("ID", .str env1.newObjectID.Hex), ("Title", .str title),
            ("Content", .str content)]) ∧
      (getBlogPost env2 env1.newObjectID.Hex
        (createBlogPost env1
          (some (.object [⟨"title", rawT, .str title⟩, ⟨"content", rawC, .str content⟩]))
          store).store).outcome
        = .responded 200 (.obj [("ID", .str env1.newObjectID.Hex), ("Title", .str title),
            ("Content", .str content)]) := by
  obtain ⟨id, store2, hr⟩ := hinsert
  have hzero : NilObjectID.IsZero = true := by decide
  obtain ⟨_, hnew, hid, hstore⟩ := InsertOne_ok env1 store _ id store2 hr
  simp only [hzero, if_true] at hnew hid hstore
  subst hid hstore
  have hfind : FindOne env2 (store ++ [⟨env1.newObjectID, title, content⟩]) env1.newObjectID
      = .ok ⟨env1.newObjectID, title, content⟩ := by
    have := lookup_append_new store ⟨env1.newObjectID, title, content⟩ hnew
    simp only at this
    simp [FindOne, hread2, this]
  simp only [createBlogPost, ShouldBindJSON_title_content, getDB_of_reachable env1 hreach1, hr,
    getBlogPost, getDB_of_reachable env2 hreach2, ObjectIDFromHex_Hex, hfind, BlogPost.toJSON,
    StatusCreated, StatusOK, and_self]

theorem decodeObject_nil (p : BlogPost) : decodeObject p [] = .ok p := rfl

theorem setField_keeps_Title (p q : BlogPost) (m : Member)
    (h : setField p m = .ok q) (hk : foldName m.key ≠ "TITLE".data) : q.Title = p.Title := by
  unfold setField at h
  by_cases h1 : foldName m.key = "ID".data
  · rw [if_pos h1] at h
    cases hu : unmarshalObjectID p.ID m.raw m.value with
    | error e => simp [hu] at h
    | ok id => simp only [hu, Except.ok.injEq] at h; subst h; rfl
  · rw [if_neg h1, if_neg hk] at h
    by_cases h3 : foldName m.key = "CONTENT".data
    · rw [if_pos h3] at h
      cases hu : unmarshalString "Content" p.Content m.value with
      | error e => simp [hu] at h
      | ok id => simp only [hu, Except.ok.injEq] at h; subst h; rfl
    · rw [if_neg h3] at h
      simp only [Except.ok.injEq] at h; subst h; rfl

theorem setField_keeps_Content (p q : BlogPost) (m : Member)
    (h : setField p m = .ok q) (hk : foldName m.key ≠ "CONTENT".data) :
    q.Content = p.Content := by
  unfold setField at h
  by_cases h1 : foldName m.key = "ID".data
  · rw [if_pos h1] at h
    cases hu : unmarshalObjectID p.ID m.raw m.value with
    | error e => simp [hu] at h
    | ok id => simp only [hu, Except.ok.injEq] at h; subst h; rfl
  · rw [if_neg h1] at h
    by_cases h3 : foldName m.key = "TITLE".data
    · rw [if_pos h3] at h
      cases hu : unmarshalString "Title" p.Title m.value with
      | error e => simp [hu] at h
      | ok id => simp only [hu, Except.ok.injEq] at h; subst h; rfl
    · rw [if_neg h3, if_neg hk] at h
      simp only [Except.ok.injEq] at h; subst h; rfl

theorem decodeObject_keeps_Title (members : List Member) (p q : BlogPost)
    (h : decodeObject p members = .ok q) (hk : ∀ m ∈ members, foldName m.key ≠ "TITLE".data) :
    q.Title = p.Title := by
  induction members generalizing p with
  | nil => simp only [decodeObject, Except.ok.injEq] at h; subst h; rfl
  | cons m rest ih =>
    simp only [decodeObject] at h
    split at h
    · rename_i p2 hset
      rw [ih p2 h (fun m2 hm2 => hk m2 (List.mem_cons_of_mem _ hm2))]
      exact setField_keeps_Title p p2 m hset (hk m (List.mem_cons_self _ _))
    · simp at h

theorem decodeObject_keeps_Content (members : List Member) (p q : BlogPost)
    (h : decodeObject p members = .ok q) (hk : ∀ m ∈ members, foldName m.key ≠ "CONTENT".data) :
    q.Content = p.Content := by
  induction members generalizing p with
  | nil => simp only [decodeObject, Except.ok.injEq] at h; subst h; rfl
  | cons m rest ih =>
    simp only [decodeObject] at h
    split at h
    · rename_i p2 hset
      rw [ih p2 h (fun m2 hm2 => hk m2 (List.mem_cons_of_mem _ hm2))]
      exact setField_keeps_Content p p2 m hset (hk m (List.mem_cons_self _ _))
    · simp at h

/-- Decoding a list of members with one more member at the end. -/
theorem decodeObject_append (members : List Member) (m : Member) (p : BlogPost) :
    decodeObject p (members ++ [m])
      = (match decodeObject p members with
        | .ok q => setField q m
        | .error e => .error e) := by
  induction members generalizing p with
  | nil =>
    simp only [List.nil_append, decodeObject]
    cases setField p m <;> rfl
  | cons m2 rest ih =>
    simp only [List.cons_append, decodeObject]
    cases setField p m2 with
    | error e => rfl
    | ok q => exact ih q

/-- A body object without `title` is bound exactly like the same object
with the member `"title":""` added. -/
theorem ShouldBindJSON_add_title (members : List Member)
    (hk : ∀ m ∈ members, foldName m.key ≠ "TITLE".data) :
    ShouldBindJSON (some (.object (members ++ [emptyTitle])))
      = ShouldBindJSON (some (.object members)) := by
  simp only [ShouldBindJSON]
  rw [decodeObject_append]
  cases h : decodeObject BlogPost.zero members with
  | error e => rfl
  | ok q =>
    have ht : q.Title = "" := decodeObject_keeps_Title members BlogPost.zero q h hk
    simp only [emptyTitle, setField_title]
    rw [← ht]

/-- A body object without `content` is bound exactly like the same object
with the member `"content":""` added. -/
theorem ShouldBindJSON_add_content (members : List Member)
    (hk : ∀ m ∈ members, foldName m.key ≠ "CONTENT".data) :
    ShouldBindJSON (some (.object (members ++ [emptyContent])))
      = ShouldBindJSON (some (.object members)) := by
  simp only [ShouldBindJSON]
  rw [decodeObject_append]
  cases h : decodeObject BlogPost.zero members with
  | error e => rfl
  | ok q =>
    have ht : q.Content = "" := decodeObject_keeps_Content members BlogPost.zero q h hk
    simp only [emptyContent, setField_content]
    rw [← ht]

/-! ## Create, then read (C1, C9) -/

/-- Claim C1. When the database is reachable and the insert succeeds,
`createBlogPost` with body `{title, content}` answers 201 with an entity whose
identifier is not the zero identifier, and `getBlogPost` with the hex form of
that identifier on the resulting collection answers 200 with an entity of the
same identifier, title and content. -/
theorem create_then_get (env1 env2 : DbEnv) (store : Store) (title content : String)
    (rawT rawC : List (Fin 256))
    (hreach1 : env1.reachable)
    (hinsert : ∃ id store2, InsertOne env1 store ⟨NilObjectID, title, content⟩ = (.ok id, store2))
    (hreach2 : env2.reachable) (hread2 : env2.opErr = false) :
    ∃ id : ObjectID, id ≠ NilObjectID ∧
      (createBlogPost env1
        (some (.object [⟨"title", rawT, .str title⟩, ⟨"content", rawC, .str content⟩]))
        store).outcome
        = .responded 201
            (.obj [("ID", .str id.Hex), ("Title", .str title), ("Content", .str content)]) ∧
      (getBlogPost env2 id.Hex
        (createBlogPost env1
          (some (.object [⟨"title", rawT, .str title⟩, ⟨"content", rawC, .str content⟩]))
          store).store).outcome
        = .responded 200
            (.obj [("ID", .str id.Hex), ("Title", .str title), ("Content", .str content)]) :=
  ⟨env1.newObjectID, newObjectID_ne_nil env1,
    create_get_generated env1 env2 store title content rawT rawC hreach1 hinsert hreach2 hread2⟩

theorem create_then_get_witness :
    ∃ id : ObjectID, id ≠ NilObjectID ∧
      (createBlogPost envNext
        (some (.object [⟨"title", [0x22, 0x41, 0x22], .str "A"⟩,
          ⟨"content", [0x22, 0x42, 0x22], .str "B"⟩]))
        store2).outcome
        = .responded 201 (.obj [("ID", .str id.Hex), ("Title", .str "A"), ("Content", .str "B")]) ∧
      (getBlogPost envUp id.Hex
        (createBlogPost envNext
          (some (.object [⟨"title", [0x22, 0x41, 0x22], .str "A"⟩,
            ⟨"content", [0x22, 0x42, 0x22], .str "B"⟩]))
          store2).store).outcome
        = .responded 200 (.obj [("ID", .str id.Hex), ("Title", .str "A"), ("Content", .str "B")]) :=
  create_then_get envNext envUp store2 "A" "B" [0x22, 0x41, 0x22]
    [0x22, 0x42, 0x22] (by decide) ⟨_, _, rfl⟩ (by decide) (by decide)

/-- Claim C9, as stated, fails: for `POST /posts` with body
`{"title":"A","content":"B"}` on a reachable database the answer is 201, and
the keys of its body are `ID`, `Title`, `Content`, not `id`, `title`,
`content`. -/
theorem scenario_keys_counterexample :
    (createBlogPost envUp bodyAB []).status = some 201 ∧
      (createBlogPost envUp bodyAB []).body.map Json.keys = some ["ID", "Title", "Content"] ∧
      (createBlogPost envUp bodyAB []).body.map Json.keys ≠ some ["id", "title", "content"] := by
  decide

/-- Claim C9, amended. For `POST /posts` with body `{"title":"A","content":"B"}`
on a reachable database where the insert succeeds, `createBlogPost` answers 201
with a JSON object whose keys are exactly `ID`, `Title`, `Content`, where `ID`
is a string of 24 lower-case hexadecimal characters, `Title` is "A" and
`Content` is "B"; and `getBlogPost` on that string answers 200 with the
identical body. -/
theorem scenario_create_get (env1 env2 : DbEnv) (store : Store)
    (hreach1 : env1.reachable)
    (hinsert : ∃ id store2, InsertOne env1 store ⟨NilObjectID, "A", "B"⟩ = (.ok id, store2))
    (hreach2 : env2.reachable) (hread2 : env2.opErr = false) :
    ∃ hex : String, IsHex24 hex ∧ (∀ c ∈ hex.data, c ∈ hextable) ∧
      (createBlogPost env1 bodyAB store).outcome
        = .responded 201 (.obj [("ID", .str hex), ("Title", .str "A"), ("Content", .str "B")]) ∧
      (getBlogPost env2 hex (createBlogPost env1 bodyAB store).store).outcome
        = .responded 200 (.obj [("ID", .str hex), ("Title", .str "A"), ("Content", .str "B")]) :=
  ⟨env1.newObjectID.Hex, IsHex24_Hex _, hexEncode_lower _,
    create_get_generated env1 env2 store "A" "B" _ _ hreach1 hinsert hreach2 hread2⟩

theorem scenario_create_get_witness :
    ∃ hex : String, IsHex24 hex ∧ (∀ c ∈ hex.data, c ∈ hextable) ∧
      (createBlogPost envUp bodyAB []).outcome
        = .responded 201 (.obj [("ID", .str hex), ("Title", .str "A"), ("Content", .str "B")]) ∧
      (getBlogPost envUp hex (createBlogPost envUp bodyAB []).store).outcome
        = .responded 200 (.obj [("ID", .str hex), ("Title", .str "A"), ("Content", .str "B")]) :=
  scenario_create_get envUp envUp [] (by decide) ⟨_, _, rfl⟩ (by decide) (by decide)

/-! ## Reading everything (C4) -/

/-- On a reachable database whose collection is empty and whose read
succeeds, `getBlogPosts` answers 200 with the JSON value `null`. -/
theorem getBlogPosts_empty (env : DbEnv) (hreach : env.reachable) (hread : env.opErr = false)
    (hcur : env.cursorErrAt ≠ some 0) :
    (getBlogPosts env []).outcome = .responded StatusOK .null := by
  simp [getBlogPosts, getDB_of_reachable env hreach, Find, hread, readAll, hcur, Slice.toJSON]

/-- Claim C4: with the database reachable and the collection empty,
`getBlogPosts` answers status 200 but the body is the JSON value `null`, not
the empty array `[]` the claim requires. -/
theorem getBlogPosts_empty_is_null :
    (getBlogPosts envUp []).outcome = .responded 200 .null ∧
      (getBlogPosts envUp []).body ≠ some (.arr []) := by
  refine ⟨rfl, ?_⟩
  intro h
  have h2 : (getBlogPosts envUp []).body = some .null := rfl
  rw [h2] at h
  cases h


/-! ## Malformed identifiers (C2) -/

theorem getBlogPost_malformed (env : DbEnv) (id : String) (store : Store)
    (hid : ObjectIDFromHex id = none) :
    AnsweredWithoutReadWrite env store (getBlogPost env id store) := by
  unfold AnsweredWithoutReadWrite
  by_cases hreach : env.reachable
  · simp [getBlogPost, getDB_of_reachable env hreach, hid, hreach, Result.status, Outcome.status,
      StatusBadRequest]
  · rcases getDB_of_not_reachable env hreach with h | h <;>
      simp [getBlogPost, h, hreach, Result.status, Outcome.status, StatusInternalServerError]

theorem deleteBlogPost_malformed (env : DbEnv) (id : String) (store : Store)
    (hid : ObjectIDFromHex id = none) :
    AnsweredWithoutReadWrite env store (deleteBlogPost env id store) := by
  unfold AnsweredWithoutReadWrite
  by_cases hreach : env.reachable
  · simp [deleteBlogPost, getDB_of_reachable env hreach, hid, hreach, Result.status,
      Outcome.status, StatusBadRequest]
  · rcases getDB_of_not_reachable env hreach with h | h <;>
      simp [deleteBlogPost, h, hreach, Result.status, Outcome.status, StatusInternalServerError]

theorem updateBlogPost_malformed (env : DbEnv) (id : String) (body : Option Body) (store : Store)
    (blogPost : BlogPost) (hbind : ShouldBindJSON body = .ok blogPost)
    (hid : ObjectIDFromHex id = none) :
    AnsweredWithoutReadWrite env store (updateBlogPost env id body store) := by
  unfold AnsweredWithoutReadWrite
  by_cases hreach : env.reachable
  · simp [updateBlogPost, hbind, getDB_of_reachable env hreach, hid, hreach, Result.status,
      Outcome.status, StatusBadRequest]
  · rcases getDB_of_not_reachable env hreach with h | h <;>
      simp [updateBlogPost, hbind, h, hreach, Result.status, Outcome.status,
        StatusInternalServerError]

theorem updateBlogPost_unbound (env : DbEnv) (id : String) (body : Option Body) (store : Store)
    (err : BindError) (hbind : ShouldBindJSON body = .error err) :
    (updateBlogPost env id body store).status = some 400 ∧
      (updateBlogPost env id body store).calls = [] ∧
      (updateBlogPost env id body store).store = store := by
  simp [updateBlogPost, hbind, Result.status, Outcome.status, StatusBadRequest]

/-- Claim C2, as stated, fails: `not-an-id` is no valid identifier, yet with
the database down `getBlogPost` answers 500 after a connection attempt, and
with the database up it answers 400 only after connecting and pinging. -/
theorem malformed_identifier_counterexample :
    ¬ IsHex24 "not-an-id" ∧
      (getBlogPost envDown "not-an-id" []).status = some 500 ∧
      (getBlogPost envDown "not-an-id" []).calls = [.Connect] ∧
      (getBlogPost envUp "not-an-id" []).status = some 400 ∧
      (getBlogPost envUp "not-an-id" []).calls = [.Connect, .Ping, .Disconnect] := by
  decide

/-- Claim C2, amended. For every path identifier that is not a string of
exactly 24 hexadecimal characters, `getBlogPost` and `deleteBlogPost`, and
`updateBlogPost` once its body has bound, first connect and ping: they answer
400 when the database is reachable and 500 when it is not; `updateBlogPost`
with a body that does not bind answers 400 without any driver call. In every
case the collection is neither read nor written and stays as it was. -/
theorem malformed_identifier (env : DbEnv) (id : String) (body : Option Body) (store : Store)
    (hid : ¬ IsHex24 id) :
    AnsweredWithoutReadWrite env store (getBlogPost env id store) ∧
      AnsweredWithoutReadWrite env store (deleteBlogPost env id store) ∧
      ((∃ blogPost, ShouldBindJSON body = .ok blogPost) →
        AnsweredWithoutReadWrite env store (updateBlogPost env id body store)) ∧
      ((∃ err, ShouldBindJSON body = .error err) →
        (updateBlogPost env id body store).status = some 400 ∧
          (updateBlogPost env id body store).calls = [] ∧
          (updateBlogPost env id body store).store = store) := by
  have h := ObjectIDFromHex_eq_none id hid
  refine ⟨getBlogPost_malformed env id store h, deleteBlogPost_malformed env id store h, ?_, ?_⟩
  · rintro ⟨blogPost, hbind⟩
    exact updateBlogPost_malformed env id body store blogPost hbind h
  · rintro ⟨err, hbind⟩
    exact updateBlogPost_unbound env id body store err hbind

theorem malformed_identifier_witness :
    AnsweredWithoutReadWrite envUp [] (getBlogPost envUp "not-an-id" []) ∧
      AnsweredWithoutReadWrite envUp [] (deleteBlogPost envUp "not-an-id" []) ∧
      ((∃ blogPost, ShouldBindJSON bodyAB = .ok blogPost) →
        AnsweredWithoutReadWrite envUp [] (updateBlogPost envUp "not-an-id" bodyAB [])) ∧
      ((∃ err, ShouldBindJSON bodyAB = .error err) →
        (updateBlogPost envUp "not-an-id" bodyAB []).status = some 400 ∧
          (updateBlogPost envUp "not-an-id" bodyAB []).calls = [] ∧
          (updateBlogPost envUp "not-an-id" bodyAB []).store = []) :=
  malformed_identifier envUp "not-an-id" bodyAB [] (by decide)

/-! ## Bodies without `title` or `content` (C3) -/

theorem createBlogPost_400_iff (env : DbEnv) (body : Option Body) (store : Store) :
    (createBlogPost env body store).status = some 400 ↔ ∃ err, ShouldBindJSON body = .error err := by
  unfold createBlogPost
  cases hb : ShouldBindJSON body with
  | error err => simp [Result.status, Outcome.status, StatusBadRequest]
  | ok blogPost =>
    simp only [exists_false, iff_false, reduceCtorEq]
    by_cases hreach : env.reachable
    · rw [getDB_of_reachable env hreach]
      rcases hi : InsertOne env store blogPost with ⟨_ | _, store2⟩ <;>
        simp [Result.status, Outcome.status, StatusInternalServerError, StatusCreated]
    · rcases getDB_of_not_reachable env hreach with h | h <;>
        simp [h, Result.status, Outcome.status, StatusInternalServerError]

theorem createBlogPost_unbound (env : DbEnv) (body : Option Body) (store : Store)
    (err : BindError) (hbind : ShouldBindJSON body = .error err) :
    (createBlogPost env body store).store = store ∧ (createBlogPost env body store).calls = [] := by
  simp [createBlogPost, hbind]

theorem createBlogPost_congr (env : DbEnv) (body1 body2 : Option Body) (store : Store)
    (h : ShouldBindJSON body1 = ShouldBindJSON body2) :
    createBlogPost env body1 store = createBlogPost env body2 store := by
  unfold createBlogPost
  rw [h]

theorem createBlogPost_inserted (env : DbEnv) (body : Option Body) (store : Store)
    (title content : String) (hbind : ShouldBindJSON body = .ok ⟨NilObjectID, title, content⟩)
    (hreach : env.reachable)
    (hinsert : ∃ id store2, InsertOne env store ⟨NilObjectID, title, content⟩ = (.ok id, store2)) :
    (createBlogPost env body store).status = some 201 ∧
      (createBlogPost env body store).store = store ++ [⟨env.newObjectID, title, content⟩] ∧
      (createBlogPost env body store).calls = [.Connect, .Ping, .InsertOne, .Disconnect] := by
  obtain ⟨id, store2, hr⟩ := hinsert
  have hzero : NilObjectID.IsZero = true := by decide
  obtain ⟨_, _, hid, hstore⟩ := InsertOne_ok env store _ id store2 hr
  simp only [hzero, if_true] at hid hstore
  subst hid hstore
  simp [createBlogPost, hbind, getDB_of_reachable env hreach, hr, Result.status, Outcome.status,
    StatusCreated]

/-- Claim C3, as stated, fails: the bodies `{}` and `{"title":"A"}` lack a
field, yet on a reachable database `createBlogPost` answers 201 and persists
a record whose missing fields are the empty string. -/
theorem create_missing_field_counterexample :
    (createBlogPost envUp bodyEmptyObject []).status = some 201 ∧
      (createBlogPost envUp bodyEmptyObject []).store = [⟨envUp.newObjectID, "", ""⟩] ∧
      (createBlogPost envUp bodyTitleOnly []).status = some 201 ∧
      (createBlogPost envUp bodyTitleOnly []).store = [⟨envUp.newObjectID, "A", ""⟩] := by
  decide

/-- Claim C3, amended. `createBlogPost` does not ask for `title` or `content`
to be present. A JSON object body without `title` (no member whose key is
`title` up to the case of ASCII letters) gets exactly the result of the same
body with the member `"title":""` appended, and likewise for `content`:
the same response, collection and driver calls. On a reachable database
where the insert succeeds, the bodies `{}`, `{"title": t}` and
`{"content": c}` are answered 201 and the record is persisted with the empty
string for each missing field. The answer is 400 exactly when
`c.ShouldBindJSON` returns an error, and then no driver call is made and
nothing is persisted. -/
theorem create_missing_field (env : DbEnv) (store : Store) :
    (∀ members : List Member, (∀ m ∈ members, foldName m.key ≠ "TITLE".data) →
        createBlogPost env (some (.object members)) store
          = createBlogPost env (some (.object (members ++ [emptyTitle]))) store) ∧
      (∀ members : List Member, (∀ m ∈ members, foldName m.key ≠ "CONTENT".data) →
        createBlogPost env (some (.object members)) store
          = createBlogPost env (some (.object (members ++ [emptyContent]))) store) ∧
      (env.reachable →
        (∃ id store2, InsertOne env store ⟨NilObjectID, "", ""⟩ = (.ok id, store2)) →
        (createBlogPost env (some (.object [])) store).status = some 201 ∧
          (createBlogPost env (some (.object [])) store).store
            = store ++ [⟨env.newObjectID, "", ""⟩]) ∧
      (∀ (raw : List (Fin 256)) (t : String), env.reachable →
        (∃ id store2, InsertOne env store ⟨NilObjectID, t, ""⟩ = (.ok id, store2)) →
        (createBlogPost env (some (.object [⟨"title", raw, .str t⟩])) store).status = some 201 ∧
          (createBlogPost env (some (.object [⟨"title", raw, .str t⟩])) store).store
            = store ++ [⟨env.newObjectID, t, ""⟩]) ∧
      (∀ (raw : List (Fin 256)) (c : String), env.reachable →
        (∃ id store2, InsertOne env store ⟨NilObjectID, "", c⟩ = (.ok id, store2)) →
        (createBlogPost env (some (.object [⟨"content", raw, .str c⟩])) store).status = some 201 ∧
          (createBlogPost env (some (.object [⟨"content", raw, .str c⟩])) store).store
            = store ++ [⟨env.newObjectID, "", c⟩]) ∧
      (∀ body : Option Body,
        ((createBlogPost env body store).status = some 400 ↔
          ∃ err, ShouldBindJSON body = .error err) ∧
        ((createBlogPost env body store).status = some 400 →
          (createBlogPost env body store).store = store ∧
            (createBlogPost env body store).calls = [])) := by
  refine ⟨?_, ?_, ?_, ?_, ?_, ?_⟩
  · intro members hk
    exact createBlogPost_congr env _ _ store (ShouldBindJSON_add_title members hk).symm
  · intro members hk
    exact createBlogPost_congr env _ _ store (ShouldBindJSON_add_content members hk).symm
  · intro hreach hinsert
    have h := createBlogPost_inserted env (some (.object [])) store "" "" rfl hreach hinsert
    exact ⟨h.1, h.2.1⟩
  · intro raw t hreach hinsert
    have h := createBlogPost_inserted env _ store t "" (ShouldBindJSON_title raw t) hreach hinsert
    exact ⟨h.1, h.2.1⟩
  · intro raw c hreach hinsert
    have h := createBlogPost_inserted env _ store "" c (ShouldBindJSON_content raw c) hreach hinsert
    exact ⟨h.1, h.2.1⟩
  · intro body
    refine ⟨createBlogPost_400_iff env body store, ?_⟩
    intro h
    obtain ⟨err, herr⟩ := (createBlogPost_400_iff env body store).mp h
    exact createBlogPost_unbound env body store err herr

/-! ## Failures of the database (C5) -/

/-- Claim C5: the code breaks it. With a valid identifier and a reachable
database whose read fails (`FindOne` returns an error other than "no
documents"), `getBlogPost` answers 404, not 500; and when the cursor of
`getBlogPosts` breaks, the handler ends in `log.Fatal` without any answer. -/
theorem read_failure_not_500 :
    IsHex24 "65a1b2c3d4e5f60718293a4b" ∧
      FindOne envOpFails [⟨envUp.newObjectID, "A", "B"⟩] envUp.newObjectID = .error .failed ∧
      (getBlogPost envOpFails "65a1b2c3d4e5f60718293a4b" [⟨envUp.newObjectID, "A", "B"⟩]).status
        = some 404 ∧
      (getBlogPosts envCursorBreaks [⟨envUp.newObjectID, "A", "B"⟩]).status = none :=
  ⟨by decide, rfl, by decide, by decide⟩


/-! ## Updating and deleting in the collection -/

theorem setFirst_map_ID (id : ObjectID) (title content : String) (store : Store) :
    (setFirst id title content store).map BlogPost.ID = store.map BlogPost.ID := by
  induction store with
  | nil => rfl
  | cons p rest ih =>
    unfold setFirst
    by_cases h : p.ID = id
    · simp [h]
    · simp [h, ih]

theorem setFirst_length (id : ObjectID) (title content : String) (store : Store) :
    (setFirst id title content store).length = store.length := by
  have := congrArg List.length (setFirst_map_ID id title content store)
  simpa using this

theorem setFirst_filter_ne (id : ObjectID) (title content : String) (store : Store) :
    (setFirst id title content store).filter (fun p => decide (p.ID ≠ id))
      = store.filter (fun p => decide (p.ID ≠ id)) := by
  induction store with
  | nil => rfl
  | cons p rest ih =>
    unfold setFirst
    by_cases h : p.ID = id
    · simp [h]
    · simpa [h] using ih

theorem setFirst_lookup (id : ObjectID) (title content : String) (store : Store)
    (hany : store.any (fun p => decide (p.ID = id)) = true) :
    Store.lookup (setFirst id title content store) id = some ⟨id, title, content⟩ := by
  induction store with
  | nil => simp at hany
  | cons p rest ih =>
    unfold setFirst
    by_cases h : p.ID = id
    · simp [h, Store.lookup]
    · have hrest : rest.any (fun p => decide (p.ID = id)) = true := by
        simpa [h] using hany
      have := ih hrest
      unfold Store.lookup at this ⊢
      simp [h, this]

theorem setFirst_mem (id : ObjectID) (title content : String) (store : Store) (hwf : store.WF)
    (p : BlogPost) (hp : p ∈ setFirst id title content store) (hid : p.ID = id) :
    p = ⟨id, title, content⟩ := by
  induction store with
  | nil => simp [setFirst] at hp
  | cons q rest ih =>
    unfold Store.WF at hwf ih
    simp only [List.map_cons, List.nodup_cons, List.mem_map, not_exists, not_and] at hwf
    unfold setFirst at hp
    by_cases h : q.ID = id
    · simp only [h, if_true, List.mem_cons] at hp
      rcases hp with rfl | hp
      · rfl
      · exact absurd (hid.trans h.symm) (hwf.1 p hp)
    · simp only [h, if_false, List.mem_cons] at hp
      rcases hp with rfl | hp
      · exact absurd hid h
      · exact ih hwf.2 hp

theorem setFirst_any (id id2 : ObjectID) (title content : String) (store : Store) :
    (setFirst id title content store).any (fun p => decide (p.ID = id2))
      = store.any (fun p => decide (p.ID = id2)) := by
  induction store with
  | nil => rfl
  | cons p rest ih =>
    unfold setFirst
    by_cases h : p.ID = id
    · simp [h]
    · simp [h, ih]

theorem setFirst_idem (id : ObjectID) (title content : String) (store : Store) :
    setFirst id title content (setFirst id title content store)
      = setFirst id title content store := by
  induction store with
  | nil => rfl
  | cons p rest ih =>
    by_cases h : p.ID = id
    · simp [setFirst, h]
    · simp [setFirst, h, ih]

theorem setFirst_WF (id : ObjectID) (title content : String) (store : Store) (hwf : store.WF) :
    Store.WF (setFirst id title content store) := by
  unfold Store.WF at *
  rw [setFirst_map_ID]
  exact hwf

theorem eraseP_eq_filter (id : ObjectID) (store : Store) (hwf : store.WF) :
    store.eraseP (fun p => decide (p.ID = id)) = store.filter (fun p => decide (p.ID ≠ id)) := by
  induction store with
  | nil => rfl
  | cons q rest ih =>
    unfold Store.WF at hwf ih
    simp only [List.map_cons, List.nodup_cons, List.mem_map, not_exists, not_and] at hwf
    by_cases h : q.ID = id
    · have hrest : rest.filter (fun p => decide (p.ID ≠ id)) = rest := by
        rw [List.filter_eq_self]
        intro p hp
        have := hwf.1 p hp
        have hne : ¬ p.ID = id := fun hpid => this (hpid.trans h.symm)
        simpa using hne
      simpa [h] using hrest.symm
    · simpa [h] using ih hwf.2

theorem lookup_filter_ne (id : ObjectID) (store : Store) :
    Store.lookup (store.filter (fun p => decide (p.ID ≠ id))) id = none := by
  unfold Store.lookup
  rw [List.find?_eq_none]
  intro p hp
  have := (List.mem_filter.mp hp).2
  simpa using this

theorem eraseP_WF (id : ObjectID) (store : Store) (hwf : store.WF) :
    Store.WF (store.eraseP (fun p => decide (p.ID = id))) := by
  unfold Store.WF at *
  exact List.Nodup.sublist ((List.eraseP_sublist store).map BlogPost.ID) hwf


theorem status_500_of_not_reachable (env : DbEnv) (hreach : ¬ env.reachable)
    (id : String) (store : Store) :
    (getBlogPost env id store).status = some 500 ∧ (getBlogPost env id store).store = store ∧
      (getBlogPosts env store).status = some 500 ∧ (getBlogPosts env store).store = store ∧
      (deleteBlogPost env id store).status = some 500 ∧
      (deleteBlogPost env id store).store = store := by
  rcases getDB_of_not_reachable env hreach with h | h <;>
    simp [getBlogPost, getBlogPosts, deleteBlogPost, h, Result.status, Outcome.status,
      StatusInternalServerError]

theorem deleteBlogPost_200 (env : DbEnv) (id : String) (store : Store)
    (h : (deleteBlogPost env id store).status = some 200) :
    env.reachable ∧ env.opErr = false ∧ ∃ oid, ObjectIDFromHex id = some oid ∧
      store.any (fun p => decide (p.ID = oid)) = true ∧
      (deleteBlogPost env id store).store = store.eraseP (fun p => decide (p.ID = oid)) := by
  by_cases hreach : env.reachable
  · refine ⟨hreach, ?_⟩
    unfold deleteBlogPost at h ⊢
    rw [getDB_of_reachable env hreach] at h ⊢
    cases hid : ObjectIDFromHex id with
    | none => simp [hid, Result.status, Outcome.status, StatusBadRequest] at h
    | some oid =>
      cases hop : env.opErr with
      | true =>
        simp [hid, DeleteOne, hop, Result.status, Outcome.status, StatusInternalServerError] at h
      | false =>
        cases hany : store.any (fun p => decide (p.ID = oid)) with
        | false =>
          simp only [hid, DeleteOne, hop, hany] at h
          simp [Result.status, Outcome.status, StatusNotFound] at h
        | true =>
          refine ⟨rfl, oid, rfl, hany, ?_⟩
          simp only [DeleteOne, hop, hany]
          simp
  · have := (status_500_of_not_reachable env hreach id store).2.2.2.2.1
    rw [this] at h
    simp at h

/-- What `deleteBlogPost` answers and leaves behind, case by case, once the
database is reachable and the identifier is valid. -/
theorem deleteBlogPost_cases (env : DbEnv) (id : String) (store : Store) (oid : ObjectID)
    (hreach : env.reachable) (hid : ObjectIDFromHex id = some oid) :
    (env.opErr = true → (deleteBlogPost env id store).status = some 500 ∧
      (deleteBlogPost env id store).store
        = if env.opApplied then store.eraseP (fun p => decide (p.ID = oid)) else store) ∧
    (env.opErr = false → store.any (fun p => decide (p.ID = oid)) = true →
      (deleteBlogPost env id store).status = some 200 ∧
        (deleteBlogPost env id store).store = store.eraseP (fun p => decide (p.ID = oid))) ∧
    (env.opErr = false → store.any (fun p => decide (p.ID = oid)) = false →
      (deleteBlogPost env id store).status = some 404 ∧
        (deleteBlogPost env id store).store = store) := by
  unfold deleteBlogPost
  simp only [getDB_of_reachable env hreach, hid, DeleteOne]
  refine ⟨?_, ?_, ?_⟩
  · intro hop
    simp [hop, Result.status, Outcome.status, StatusInternalServerError]
  · intro hop hany
    simp [hop, hany, Result.status, Outcome.status, StatusOK]
  · intro hop hany
    simp [hop, hany, Result.status, Outcome.status, StatusNotFound]

theorem deleteBlogPost_400_404 (env : DbEnv) (id : String) (store : Store)
    (h : (deleteBlogPost env id store).status = some 400 ∨
      (deleteBlogPost env id store).status = some 404) :
    (deleteBlogPost env id store).store = store := by
  by_cases hreach : env.reachable
  · cases hid : ObjectIDFromHex id with
    | none => exact (deleteBlogPost_malformed env id store hid).1
    | some oid =>
      have hc := deleteBlogPost_cases env id store oid hreach hid
      cases hop : env.opErr with
      | true =>
        rw [(hc.1 hop).1] at h
        simp at h
      | false =>
        cases hany : store.any (fun p => decide (p.ID = oid)) with
        | false => exact (hc.2.2 hop hany).2
        | true =>
          rw [(hc.2.1 hop hany).1] at h
          simp at h
  · exact (status_500_of_not_reachable env hreach id store).2.2.2.2.2

theorem deleteBlogPost_not_200 (env : DbEnv) (id : String) (store : Store)
    (hlost : ¬ (env.opErr = true ∧ env.opApplied = true))
    (h : (deleteBlogPost env id store).status ≠ some 200) :
    (deleteBlogPost env id store).store = store := by
  by_cases hreach : env.reachable
  · cases hid : ObjectIDFromHex id with
    | none => exact (deleteBlogPost_malformed env id store hid).1
    | some oid =>
      have hc := deleteBlogPost_cases env id store oid hreach hid
      cases hop : env.opErr with
      | true =>
        have happ : env.opApplied = false := by
          cases ha : env.opApplied with
          | false => rfl
          | true => exact absurd ⟨hop, ha⟩ hlost
        rw [(hc.1 hop).2, happ]
        simp
      | false =>
        cases hany : store.any (fun p => decide (p.ID = oid)) with
        | false => exact (hc.2.2 hop hany).2
        | true => exact absurd (hc.2.1 hop hany).1 h
  · exact (status_500_of_not_reachable env hreach id store).2.2.2.2.2

theorem getBlogPost_store (env : DbEnv) (id : String) (store : Store) :
    (getBlogPost env id store).store = store := by
  by_cases hreach : env.reachable
  · unfold getBlogPost
    rw [getDB_of_reachable env hreach]
    cases hid : ObjectIDFromHex id with
    | none => rfl
    | some oid =>
      cases hf : FindOne env store oid with
      | error e => simp only [hf]
      | ok p => simp only [hf]
  · exact (status_500_of_not_reachable env hreach id store).2.1

theorem getBlogPosts_store (env : DbEnv) (store : Store) :
    (getBlogPosts env store).store = store := by
  by_cases hreach : env.reachable
  · unfold getBlogPosts
    rw [getDB_of_reachable env hreach]
    cases hf : Find env store with
    | error e => rfl
    | ok docs =>
      cases hr : readAll env 0 docs none with
      | none => simp only [hr]
      | some sl => simp only [hr]
  · exact (status_500_of_not_reachable env hreach "" store).2.2.2.1

theorem getBlogPost_404_of_absent (env : DbEnv) (id : String) (oid : ObjectID) (store : Store)
    (hreach : env.reachable) (hid : ObjectIDFromHex id = some oid)
    (habs : store.lookup oid = none) : (getBlogPost env id store).status = some 404 := by
  unfold getBlogPost
  rw [getDB_of_reachable env hreach]
  cases hop : env.opErr <;>
    simp [hid, FindOne, hop, habs, Result.status, Outcome.status, StatusNotFound]

/-! ## Delete, then read (C6) -/

/-- Claim C6. On a collection with unique identifiers, if `deleteBlogPost`
answers 200 for an identifier, then `getBlogPost` on the resulting collection,
with the database reachable, answers 404 for every spelling that parses to
the same identifier. -/
theorem delete_then_get (env1 env2 : DbEnv) (store : Store) (id1 id2 : String)
    (hwf : store.WF) (hreach2 : env2.reachable)
    (hdel : (deleteBlogPost env1 id1 store).status = some 200)
    (hsame : ObjectIDFromHex id2 = ObjectIDFromHex id1) :
    (getBlogPost env2 id2 (deleteBlogPost env1 id1 store).store).status = some 404 := by
  obtain ⟨_, _, oid, hid, _, hstore⟩ := deleteBlogPost_200 env1 id1 store hdel
  rw [hstore, eraseP_eq_filter oid store hwf]
  exact getBlogPost_404_of_absent env2 id2 oid _ hreach2 (hsame.trans hid) (lookup_filter_ne oid store)

theorem delete_then_get_witness :
    (getBlogPost envUp "65A1B2C3D4E5F60718293A4B"
      (deleteBlogPost envUp "65a1b2c3d4e5f60718293a4b" store2).store).status = some 404 :=
  delete_then_get envUp envUp store2 "65a1b2c3d4e5f60718293a4b" "65A1B2C3D4E5F60718293A4B"
    (by decide) (by decide) (by decide) (by decide)


/-! ## Update (C7, C8) -/

theorem updateBlogPost_cases (env : DbEnv) (id : String) (body : Option Body) (store : Store)
    (post : BlogPost) (oid : ObjectID) (hreach : env.reachable) (hop : env.opErr = false)
    (hbind : ShouldBindJSON body = .ok post) (hid : ObjectIDFromHex id = some oid) :
    (store.any (fun p => decide (p.ID = oid)) = true →
      (updateBlogPost env id body store).status = some 200 ∧
        (updateBlogPost env id body store).store = setFirst oid post.Title post.Content store) ∧
    (store.any (fun p => decide (p.ID = oid)) = false →
      (updateBlogPost env id body store).status = some 404 ∧
        (updateBlogPost env id body store).store = store) := by
  unfold updateBlogPost
  rw [hbind]
  simp only [getDB_of_reachable env hreach, hid, UpdateOne, hop]
  constructor
  · intro hany
    simp [hany, Result.status, Outcome.status, StatusOK]
  · intro hany
    simp [hany, Result.status, Outcome.status, StatusNotFound]

theorem updateBlogPost_failed (env : DbEnv) (id : String) (body : Option Body) (store : Store)
    (post : BlogPost) (oid : ObjectID) (hreach : env.reachable) (hop : env.opErr = true)
    (hbind : ShouldBindJSON body = .ok post) (hid : ObjectIDFromHex id = some oid) :
    (updateBlogPost env id body store).status = some 500 ∧
      (updateBlogPost env id body store).store
        = if env.opApplied then setFirst oid post.Title post.Content store else store := by
  unfold updateBlogPost
  rw [hbind]
  simp [getDB_of_reachable env hreach, hid, UpdateOne, hop, Result.status, Outcome.status,
    StatusInternalServerError]

theorem updateBlogPost_not_reachable (env : DbEnv) (id : String) (body : Option Body)
    (store : Store) (post : BlogPost) (hreach : ¬ env.reachable)
    (hbind : ShouldBindJSON body = .ok post) :
    (updateBlogPost env id body store).status = some 500 ∧
      (updateBlogPost env id body store).store = store := by
  unfold updateBlogPost
  rw [hbind]
  rcases getDB_of_not_reachable env hreach with hg | hg <;>
    simp [hg, Result.status, Outcome.status, StatusInternalServerError]

theorem updateBlogPost_200 (env : DbEnv) (id : String) (body : Option Body) (store : Store)
    (h : (updateBlogPost env id body store).status = some 200) :
    env.reachable ∧ env.opErr = false ∧ ∃ oid post, ObjectIDFromHex id = some oid ∧
      ShouldBindJSON body = .ok post ∧ store.any (fun p => decide (p.ID = oid)) = true ∧
      (updateBlogPost env id body store).store = setFirst oid post.Title post.Content store := by
  cases hbind : ShouldBindJSON body with
  | error err =>
    rw [(updateBlogPost_unbound env id body store err hbind).1] at h
    simp at h
  | ok post =>
    by_cases hreach : env.reachable
    · cases hid : ObjectIDFromHex id with
      | none =>
        have := (updateBlogPost_malformed env id body store post hbind hid).2.2.1 hreach
        rw [this.1] at h
        simp at h
      | some oid =>
        cases hop : env.opErr with
        | true =>
          rw [(updateBlogPost_failed env id body store post oid hreach hop hbind hid).1] at h
          simp at h
        | false =>
          have hc := updateBlogPost_cases env id body store post oid hreach hop hbind hid
          cases hany : store.any (fun p => decide (p.ID = oid)) with
          | false =>
            rw [(hc.2 hany).1] at h
            simp at h
          | true => exact ⟨hreach, rfl, oid, post, rfl, rfl, hany, (hc.1 hany).2⟩
    · rw [(updateBlogPost_not_reachable env id body store post hreach hbind).1] at h
      simp at h

theorem updateBlogPost_400_404 (env : DbEnv) (id : String) (body : Option Body) (store : Store)
    (h : (updateBlogPost env id body store).status = some 400 ∨
      (updateBlogPost env id body store).status = some 404) :
    (updateBlogPost env id body store).store = store := by
  cases hbind : ShouldBindJSON body with
  | error err => exact (updateBlogPost_unbound env id body store err hbind).2.2
  | ok post =>
    by_cases hreach : env.reachable
    · cases hid : ObjectIDFromHex id with
      | none => exact (updateBlogPost_malformed env id body store post hbind hid).1
      | some oid =>
        cases hop : env.opErr with
        | true =>
          rw [(updateBlogPost_failed env id body store post oid hreach hop hbind hid).1] at h
          simp at h
        | false =>
          have hc := updateBlogPost_cases env id body store post oid hreach hop hbind hid
          cases hany : store.any (fun p => decide (p.ID = oid)) with
          | false => exact (hc.2 hany).2
          | true =>
            rw [(hc.1 hany).1] at h
            simp at h
    · exact (updateBlogPost_not_reachable env id body store post hreach hbind).2

theorem updateBlogPost_not_200 (env : DbEnv) (id : String) (body : Option Body) (store : Store)
    (hlost : ¬ (env.opErr = true ∧ env.opApplied = true))
    (h : (updateBlogPost env id body store).status ≠ some 200) :
    (updateBlogPost env id body store).store = store := by
  cases hbind : ShouldBindJSON body with
  | error err => exact (updateBlogPost_unbound env id body store err hbind).2.2
  | ok post =>
    by_cases hreach : env.reachable
    · cases hid : ObjectIDFromHex id with
      | none => exact (updateBlogPost_malformed env id body store post hbind hid).1
      | some oid =>
        cases hop : env.opErr with
        | true =>
          have happ : env.opApplied = false := by
            cases ha : env.opApplied with
            | false => rfl
            | true => exact absurd ⟨hop, ha⟩ hlost
          rw [(updateBlogPost_failed env id body store post oid hreach hop hbind hid).2, happ]
          simp
        | false =>
          have hc := updateBlogPost_cases env id body store post oid hreach hop hbind hid
          cases hany : store.any (fun p => decide (p.ID = oid)) with
          | false => exact (hc.2 hany).2
          | true => exact absurd (hc.1 hany).1 h
    · exact (updateBlogPost_not_reachable env id body store post hreach hbind).2

/-- Claim C7. On a collection with unique identifiers, after `updateBlogPost`
answers 200 the identifier is valid and present, the body has bound, the
record under the identifier carries exactly the bound title and the bound
content (the empty string for a field the body lacks), its identifier is
unchanged, the identifiers in the collection are the same in the same order
(no record added or removed) and every other record is unchanged. -/
theorem update_overwrites (env : DbEnv) (id : String) (body : Option Body) (store : Store)
    (hwf : store.WF) (h : (updateBlogPost env id body store).status = some 200) :
    ∃ oid post, ObjectIDFromHex id = some oid ∧ ShouldBindJSON body = .ok post ∧
      (∃ p ∈ store, p.ID = oid) ∧
      (updateBlogPost env id body store).store.lookup oid
        = some ⟨oid, post.Title, post.Content⟩ ∧
      (∀ p ∈ (updateBlogPost env id body store).store, p.ID = oid →
        p = ⟨oid, post.Title, post.Content⟩) ∧
      (updateBlogPost env id body store).store.map BlogPost.ID = store.map BlogPost.ID ∧
      (updateBlogPost env id body store).store.filter (fun p => decide (p.ID ≠ oid))
        = store.filter (fun p => decide (p.ID ≠ oid)) := by
  obtain ⟨_, _, oid, post, hid, hbind, hany, hstore⟩ := updateBlogPost_200 env id body store h
  refine ⟨oid, post, hid, hbind, ?_, ?_, ?_, ?_, ?_⟩
  · obtain ⟨p, hp, hpid⟩ := List.any_eq_true.mp hany
    exact ⟨p, hp, by simpa using hpid⟩
  · rw [hstore]; exact setFirst_lookup oid _ _ store hany
  · rw [hstore]; exact fun p hp hpid => setFirst_mem oid _ _ store hwf p hp hpid
  · rw [hstore]; exact setFirst_map_ID oid _ _ store
  · rw [hstore]; exact setFirst_filter_ne oid _ _ store

theorem update_overwrites_witness :
    ∃ oid post, ObjectIDFromHex "65a1b2c3d4e5f60718293a4b" = some oid ∧
      ShouldBindJSON bodyTitleOnly = .ok post ∧
      (∃ p ∈ store2, p.ID = oid) ∧
      (updateBlogPost envUp "65a1b2c3d4e5f60718293a4b" bodyTitleOnly store2).store.lookup oid
        = some ⟨oid, post.Title, post.Content⟩ ∧
      (∀ p ∈ (updateBlogPost envUp "65a1b2c3d4e5f60718293a4b" bodyTitleOnly store2).store,
        p.ID = oid → p = ⟨oid, post.Title, post.Content⟩) ∧
      (updateBlogPost envUp "65a1b2c3d4e5f60718293a4b" bodyTitleOnly store2).store.map BlogPost.ID
        = store2.map BlogPost.ID ∧
      (updateBlogPost envUp "65a1b2c3d4e5f60718293a4b" bodyTitleOnly store2).store.filter
          (fun p => decide (p.ID ≠ oid))
        = store2.filter (fun p => decide (p.ID ≠ oid)) :=
  update_overwrites envUp "65a1b2c3d4e5f60718293a4b" bodyTitleOnly store2 (by decide) (by decide)

/-- Claim C8. With the database reachable and its update succeeding on both
calls, applying `updateBlogPost` twice with the same identifier and body
leaves the same collection as applying it once, and the second call answers
with the same status as the first. -/
theorem update_idempotent (env1 env2 : DbEnv) (id : String) (body : Option Body) (store : Store)
    (hreach1 : env1.reachable) (hop1 : env1.opErr = false)
    (hreach2 : env2.reachable) (hop2 : env2.opErr = false) :
    (updateBlogPost env2 id body (updateBlogPost env1 id body store).store).store
        = (updateBlogPost env1 id body store).store ∧
      (updateBlogPost env2 id body (updateBlogPost env1 id body store).store).status
        = (updateBlogPost env1 id body store).status := by
  cases hbind : ShouldBindJSON body with
  | error err =>
    have h1 := updateBlogPost_unbound env1 id body store err hbind
    have h2 := updateBlogPost_unbound env2 id body (updateBlogPost env1 id body store).store err
      hbind
    exact ⟨h2.2.2, by rw [h2.1, h1.1]⟩
  | ok post =>
    cases hid : ObjectIDFromHex id with
    | none =>
      have h1 := updateBlogPost_malformed env1 id body store post hbind hid
      have h2 := updateBlogPost_malformed env2 id body (updateBlogPost env1 id body store).store
        post hbind hid
      exact ⟨h2.1, by rw [(h2.2.2.1 hreach2).1, (h1.2.2.1 hreach1).1]⟩
    | some oid =>
      have hc1 := updateBlogPost_cases env1 id body store post oid hreach1 hop1 hbind hid
      have hc2 := updateBlogPost_cases env2 id body (updateBlogPost env1 id body store).store
        post oid hreach2 hop2 hbind hid
      cases hany : store.any (fun p => decide (p.ID = oid)) with
      | false =>
        obtain ⟨hs1, hst1⟩ := hc1.2 hany
        rw [hst1] at hc2 ⊢
        obtain ⟨hs2, hst2⟩ := hc2.2 hany
        exact ⟨hst2, by rw [hs2, hs1]⟩
      | true =>
        obtain ⟨hs1, hst1⟩ := hc1.1 hany
        rw [hst1] at hc2 ⊢
        obtain ⟨hs2, hst2⟩ := hc2.1 (by rw [setFirst_any]; exact hany)
        exact ⟨by rw [hst2, setFirst_idem], by rw [hs2, hs1]⟩

theorem update_idempotent_witness :
    (updateBlogPost envUp "65a1b2c3d4e5f60718293a4b" bodyTitleOnly
        (updateBlogPost envUp "65a1b2c3d4e5f60718293a4b" bodyTitleOnly store2).store).store
        = (updateBlogPost envUp "65a1b2c3d4e5f60718293a4b" bodyTitleOnly store2).store ∧
      (updateBlogPost envUp "65a1b2c3d4e5f60718293a4b" bodyTitleOnly
        (updateBlogPost envUp "65a1b2c3d4e5f60718293a4b" bodyTitleOnly store2).store).status
        = (updateBlogPost envUp "65a1b2c3d4e5f60718293a4b" bodyTitleOnly store2).status :=
  update_idempotent envUp envUp "65a1b2c3d4e5f60718293a4b" bodyTitleOnly store2 (by decide) (by decide)
    (by decide) (by decide)


/-! ## Failed requests and reads (C10) -/

/-- What `createBlogPost` answers and leaves behind, case by case, once the
body has bound and the database is reachable. -/
theorem createBlogPost_cases (env : DbEnv) (body : Option Body) (store : Store) (post : BlogPost)
    (hbind : ShouldBindJSON body = .ok post) (hreach : env.reachable) :
    (store.any (fun p => decide (p.ID = if post.ID.IsZero then env.newObjectID else post.ID))
        = true →
      (createBlogPost env body store).status = some 500 ∧
        (createBlogPost env body store).store = store) ∧
    (store.any (fun p => decide (p.ID = if post.ID.IsZero then env.newObjectID else post.ID))
        = false → env.opErr = true →
      (createBlogPost env body store).status = some 500 ∧
        (createBlogPost env body store).store
          = if env.opApplied then
              store ++ [{ post with ID := if post.ID.IsZero then env.newObjectID else post.ID }]
            else store) ∧
    (store.any (fun p => decide (p.ID = if post.ID.IsZero then env.newObjectID else post.ID))
        = false → env.opErr = false →
      (createBlogPost env body store).status = some 201 ∧
        (createBlogPost env body store).store
          = store ++ [{ post with ID := if post.ID.IsZero then env.newObjectID else post.ID }]) := by
  unfold createBlogPost
  rw [hbind]
  simp only [getDB_of_reachable env hreach, InsertOne]
  refine ⟨?_, ?_, ?_⟩
  · intro hdup
    rw [if_pos hdup]
    simp [Result.status, Outcome.status, StatusInternalServerError]
  · intro hdup hop
    rw [if_neg (by simp [hdup]), if_pos hop]
    simp [Result.status, Outcome.status, StatusInternalServerError]
  · intro hdup hop
    rw [if_neg (by simp [hdup]), if_neg (by simp [hop])]
    simp [Result.status, Outcome.status, StatusCreated]

theorem createBlogPost_not_reachable (env : DbEnv) (body : Option Body) (store : Store)
    (post : BlogPost) (hbind : ShouldBindJSON body = .ok post) (hreach : ¬ env.reachable) :
    (createBlogPost env body store).status = some 500 ∧
      (createBlogPost env body store).store = store := by
  unfold createBlogPost
  rw [hbind]
  rcases getDB_of_not_reachable env hreach with hg | hg <;>
    simp [hg, Result.status, Outcome.status, StatusInternalServerError]

theorem createBlogPost_400 (env : DbEnv) (body : Option Body) (store : Store)
    (h : (createBlogPost env body store).status = some 400) :
    (createBlogPost env body store).store = store := by
  obtain ⟨err, herr⟩ := (createBlogPost_400_iff env body store).mp h
  exact (createBlogPost_unbound env body store err herr).1

theorem createBlogPost_not_201 (env : DbEnv) (body : Option Body) (store : Store)
    (hlost : ¬ (env.opErr = true ∧ env.opApplied = true))
    (h : (createBlogPost env body store).status ≠ some 201) :
    (createBlogPost env body store).store = store := by
  cases hbind : ShouldBindJSON body with
  | error err => exact (createBlogPost_unbound env body store err hbind).1
  | ok post =>
    by_cases hreach : env.reachable
    · have hc := createBlogPost_cases env body store post hbind hreach
      cases hdup : store.any
          (fun p => decide (p.ID = if post.ID.IsZero then env.newObjectID else post.ID)) with
      | true => exact (hc.1 hdup).2
      | false =>
        cases hop : env.opErr with
        | true =>
          have happ : env.opApplied = false := by
            cases ha : env.opApplied with
            | false => rfl
            | true => exact absurd ⟨hop, ha⟩ hlost
          rw [(hc.2.1 hdup hop).2, happ]
          simp
        | false => exact absurd (hc.2.2 hdup hop).1 h
    · exact (createBlogPost_not_reachable env body store post hbind hreach).2

/-- Claim C10, as stated, fails: when the server carries a write out and the
driver still reports an error, `createBlogPost` and `deleteBlogPost` answer
500 and the collection after the call is not the collection before it. -/
theorem failed_write_applied_counterexample :
    (createBlogPost envReplyLost bodyAB []).status = some 500 ∧
      (createBlogPost envReplyLost bodyAB []).store = [⟨envUp.newObjectID, "A", "B"⟩] ∧
      (createBlogPost envReplyLost bodyAB []).store ≠ [] ∧
      (deleteBlogPost envReplyLost "65a1b2c3d4e5f60718293a4b" store2).status = some 500 ∧
      (deleteBlogPost envReplyLost "65a1b2c3d4e5f60718293a4b" store2).store ≠ store2 := by
  decide

/-- Claim C10, amended. On a collection with unique identifiers:
`getBlogPost` and `getBlogPosts` leave the collection unchanged; whenever
`createBlogPost`, `updateBlogPost` or `deleteBlogPost` answers 400 or 404 the
collection after the call is the collection before it; the same holds for
every answer other than 201/200, so also for 500, unless the server carried
the write out and the driver still reported an error; and a 200 from
`deleteBlogPost` removes exactly the record under the given identifier, which
was there, and leaves every other record as it was. -/
theorem failures_atomic_reads_pure (env : DbEnv) (id : String) (body : Option Body)
    (store : Store) (hwf : store.WF) :
    (getBlogPost env id store).store = store ∧
      (getBlogPosts env store).store = store ∧
      ((createBlogPost env body store).status = some 400 ∨
          (createBlogPost env body store).status = some 404 →
        (createBlogPost env body store).store = store) ∧
      ((updateBlogPost env id body store).status = some 400 ∨
          (updateBlogPost env id body store).status = some 404 →
        (updateBlogPost env id body store).store = store) ∧
      ((deleteBlogPost env id store).status = some 400 ∨
          (deleteBlogPost env id store).status = some 404 →
        (deleteBlogPost env id store).store = store) ∧
      (¬ (env.opErr = true ∧ env.opApplied = true) →
        ((createBlogPost env body store).status ≠ some 201 →
          (createBlogPost env body store).store = store) ∧
        ((updateBlogPost env id body store).status ≠ some 200 →
          (updateBlogPost env id body store).store = store) ∧
        ((deleteBlogPost env id store).status ≠ some 200 →
          (deleteBlogPost env id store).store = store)) ∧
      ((deleteBlogPost env id store).status = some 200 →
        ∃ oid, ObjectIDFromHex id = some oid ∧ (∃ p ∈ store, p.ID = oid) ∧
          (deleteBlogPost env id store).store = store.filter (fun p => decide (p.ID ≠ oid)) ∧
          (deleteBlogPost env id store).store.length + 1 = store.length) := by
  refine ⟨getBlogPost_store env id store, getBlogPosts_store env store, ?_,
    updateBlogPost_400_404 env id body store, deleteBlogPost_400_404 env id store, ?_, ?_⟩
  · intro h
    rcases h with h | h
    · exact createBlogPost_400 env body store h
    · by_cases h201 : (createBlogPost env body store).status = some 201
      · rw [h201] at h
        simp at h
      · cases hbind : ShouldBindJSON body with
        | error err => exact (createBlogPost_unbound env body store err hbind).1
        | ok post =>
          by_cases hreach : env.reachable
          · have hc := createBlogPost_cases env body store post hbind hreach
            cases hdup : store.any
                (fun p => decide (p.ID = if post.ID.IsZero then env.newObjectID else post.ID)) with
            | true => exact (hc.1 hdup).2
            | false =>
              cases hop : env.opErr with
              | true =>
                rw [(hc.2.1 hdup hop).1] at h
                simp at h
              | false => exact absurd (hc.2.2 hdup hop).1 h201
          · exact (createBlogPost_not_reachable env body store post hbind hreach).2
  · intro hlost
    exact ⟨createBlogPost_not_201 env body store hlost, updateBlogPost_not_200 env id body store hlost,
      deleteBlogPost_not_200 env id store hlost⟩
  · intro h
    obtain ⟨_, _, oid, hid, hany, hstore⟩ := deleteBlogPost_200 env id store h
    obtain ⟨p, hp, hpid⟩ := List.any_eq_true.mp hany
    refine ⟨oid, hid, ⟨p, hp, by simpa using hpid⟩, ?_, ?_⟩
    · rw [hstore]; exact eraseP_eq_filter oid store hwf
    · rw [hstore, List.length_eraseP_of_mem hp hpid]
      have : 0 < store.length := List.length_pos_of_mem hp
      omega

theorem failures_atomic_reads_pure_witness :
    (getBlogPost envUp "65a1b2c3d4e5f60718293a4b" store2).store = store2 ∧
      (getBlogPosts envUp store2).store = store2 ∧
      ((createBlogPost envUp bodyAB store2).status = some 400 ∨
          (createBlogPost envUp bodyAB store2).status = some 404 →
        (createBlogPost envUp bodyAB store2).store = store2) ∧
      ((updateBlogPost envUp "65a1b2c3d4e5f60718293a4b" bodyAB store2).status = some 400 ∨
          (updateBlogPost envUp "65a1b2c3d4e5f60718293a4b" bodyAB store2).status = some 404 →
        (updateBlogPost envUp "65a1b2c3d4e5f60718293a4b" bodyAB store2).store = store2) ∧
      ((deleteBlogPost envUp "65a1b2c3d4e5f60718293a4b" store2).status = some 400 ∨
          (deleteBlogPost envUp "65a1b2c3d4e5f60718293a4b" store2).status = some 404 →
        (deleteBlogPost envUp "65a1b2c3d4e5f60718293a4b" store2).store = store2) ∧
      (¬ (envUp.opErr = true ∧ envUp.opApplied = true) →
        ((createBlogPost envUp bodyAB store2).status ≠ some 201 →
          (createBlogPost envUp bodyAB store2).store = store2) ∧
        ((updateBlogPost envUp "65a1b2c3d4e5f60718293a4b" bodyAB store2).status ≠ some 200 →
          (updateBlogPost envUp "65a1b2c3d4e5f60718293a4b" bodyAB store2).store = store2) ∧
        ((deleteBlogPost envUp "65a1b2c3d4e5f60718293a4b" store2).status ≠ some 200 →
          (deleteBlogPost envUp "65a1b2c3d4e5f60718293a4b" store2).store = store2)) ∧
      ((deleteBlogPost envUp "65a1b2c3d4e5f60718293a4b" store2).status = some 200 →
        ∃ oid, ObjectIDFromHex "65a1b2c3d4e5f60718293a4b" = some oid ∧
          (∃ p ∈ store2, p.ID = oid) ∧
          (deleteBlogPost envUp "65a1b2c3d4e5f60718293a4b" store2).store
            = store2.filter (fun p => decide (p.ID ≠ oid)) ∧
          (deleteBlogPost envUp "65a1b2c3d4e5f60718293a4b" store2).store.length + 1
            = store2.length) :=
  failures_atomic_reads_pure envUp "65a1b2c3d4e5f60718293a4b" bodyAB store2 (by decide)

/-! ## The unique index is kept -/

theorem append_new_WF (store : Store) (doc : BlogPost) (hwf : store.WF)
    (hnew : store.any (fun p => decide (p.ID = doc.ID)) = false) :
    Store.WF (store ++ [doc]) := by
  unfold Store.WF at hwf ⊢
  rw [List.map_append, List.nodup_append]
  refine ⟨hwf, by simp, ?_⟩
  intro a ha hb
  simp only [List.map_cons, List.map_nil, List.mem_singleton] at hb
  obtain ⟨q, hq, hqa⟩ := List.mem_map.mp ha
  have := List.any_eq_false.mp hnew q hq
  simp only [decide_eq_true_eq] at this
  exact this (hqa.trans hb)

theorem createBlogPost_WF (env : DbEnv) (body : Option Body) (store : Store) (hwf : store.WF) :
    Store.WF (createBlogPost env body store).store := by
  cases hbind : ShouldBindJSON body with
  | error err => rw [(createBlogPost_unbound env body store err hbind).1]; exact hwf
  | ok post =>
    by_cases hreach : env.reachable
    · have hc := createBlogPost_cases env body store post hbind hreach
      cases hdup : store.any
          (fun p => decide (p.ID = if post.ID.IsZero then env.newObjectID else post.ID)) with
      | true => rw [(hc.1 hdup).2]; exact hwf
      | false =>
        have hnew := append_new_WF store
          { post with ID := if post.ID.IsZero then env.newObjectID else post.ID } hwf hdup
        cases hop : env.opErr with
        | true =>
          rw [(hc.2.1 hdup hop).2]
          cases env.opApplied with
          | false => exact hwf
          | true => exact hnew
        | false => rw [(hc.2.2 hdup hop).2]; exact hnew
    · rw [(createBlogPost_not_reachable env body store post hbind hreach).2]; exact hwf

theorem updateBlogPost_WF (env : DbEnv) (id : String) (body : Option Body) (store : Store)
    (hwf : store.WF) : Store.WF (updateBlogPost env id body store).store := by
  cases hbind : ShouldBindJSON body with
  | error err => rw [(updateBlogPost_unbound env id body store err hbind).2.2]; exact hwf
  | ok post =>
    by_cases hreach : env.reachable
    · cases hid : ObjectIDFromHex id with
      | none => rw [(updateBlogPost_malformed env id body store post hbind hid).1]; exact hwf
      | some oid =>
        cases hop : env.opErr with
        | true =>
          rw [(updateBlogPost_failed env id body store post oid hreach hop hbind hid).2]
          cases env.opApplied with
          | false => exact hwf
          | true => exact setFirst_WF oid _ _ store hwf
        | false =>
          have hc := updateBlogPost_cases env id body store post oid hreach hop hbind hid
          cases hany : store.any (fun p => decide (p.ID = oid)) with
          | false => rw [(hc.2 hany).2]; exact hwf
          | true => rw [(hc.1 hany).2]; exact setFirst_WF oid _ _ store hwf
    · rw [(updateBlogPost_not_reachable env id body store post hreach hbind).2]; exact hwf

theorem deleteBlogPost_WF (env : DbEnv) (id : String) (store : Store) (hwf : store.WF) :
    Store.WF (deleteBlogPost env id store).store := by
  by_cases hreach : env.reachable
  · cases hid : ObjectIDFromHex id with
    | none => rw [(deleteBlogPost_malformed env id store hid).1]; exact hwf
    | some oid =>
      have hc := deleteBlogPost_cases env id store oid hreach hid
      cases hop : env.opErr with
      | true =>
        rw [(hc.1 hop).2]
        cases env.opApplied with
        | false => exact hwf
        | true => exact eraseP_WF oid store hwf
      | false =>
        cases hany : store.any (fun p => decide (p.ID = oid)) with
        | false => rw [(hc.2.2 hop hany).2]; exact hwf
        | true => rw [(hc.2.1 hop hany).2]; exact eraseP_WF oid store hwf
  · rw [(status_500_of_not_reachable env hreach id store).2.2.2.2.2]; exact hwf

/-! ## Where a database failure is answered with 500 -/

theorem operation_failure_500 (env : DbEnv) (id : String) (body : Option Body) (store : Store)
    (oid : ObjectID) (post : BlogPost) (hreach : env.reachable) (hop : env.opErr = true)
    (hid : ObjectIDFromHex id = some oid) (hbind : ShouldBindJSON body = .ok post) :
    (createBlogPost env body store).status = some 500 ∧
      (getBlogPosts env store).status = some 500 ∧
      (updateBlogPost env id body store).status = some 500 ∧
      (deleteBlogPost env id store).status = some 500 ∧
      (getBlogPost env id store).status = some 404 := by
  refine ⟨?_, ?_, (updateBlogPost_failed env id body store post oid hreach hop hbind hid).1,
    ((deleteBlogPost_cases env id store oid hreach hid).1 hop).1, ?_⟩
  · have hc := createBlogPost_cases env body store post hbind hreach
    cases hdup : store.any
        (fun p => decide (p.ID = if post.ID.IsZero then env.newObjectID else post.ID)) with
    | true => exact (hc.1 hdup).1
    | false => exact (hc.2.1 hdup hop).1
  · simp [getBlogPosts, getDB_of_reachable env hreach, Find, hop, Result.status, Outcome.status,
      StatusInternalServerError]
  · simp [getBlogPost, hid, getDB_of_reachable env hreach, FindOne, hop, Result.status,
      Outcome.status, StatusNotFound]

end BlogPostMongoGin
